import Mathlib

/-!
Verification development for `RunCalSequence.py` (KPFtools).

The Python module drives a calibration sequence against a keyword-style
device layer (`ktl`).  We give a shallow embedding:

* Device keyword values that the code treats as strings are modelled as
  `String`; numeric values (exposure times, timeouts, warm-up durations)
  are modelled as `Int` measured in centiseconds (hundredths of a second),
  so the code's `0.1` second tolerance is `10`, its `+10` second margin is
  `1000`, `60` seconds is `6000` and `300` seconds is `30000`.  Every
  numeric constant in the source and in the specification (including
  `9.99` seconds) is exact on this grid.
* A Python `dict` of sequence parameters becomes the `Entry` structure:
  one `Option`-valued field per distinct *key string* used by the code
  (note the code uses both `'Exptime'` and `'exptime'`, which are distinct
  dict keys, so they are distinct fields).  `dict.get k` with default is
  `Option.getD`; attribute access on a dict (e.g. the source's
  `args.lamp`) raises `AttributeError`, modelled by `Entry.attr_lamp`.
* The device keyword store `Dev` maps full keyword names
  (`"service.KEYWORD"`) to strings; `kpfexpose.EXPOSURE` is kept as a
  numeric field and `kpfexpose.EXPOSE` as a state code
  (0 Ready, 1 Start, 2 InProgress, 3 End, 4 Readout).  Writes to keywords
  listed in `Dev.faulty` are silently dropped by the device — this models
  the "asynchronous and unreliable" device layer whose read-back may
  disagree with a requested write.  In this store model the detector state
  does not evolve on its own; the timed model `TDev` below adds the
  autonomous `EXPOSE` signal needed for the wait/timeout claims.
* Every device interaction is recorded as an `Ev` trace event; each
  `action.execute(...)` call made by the sequencer additionally records an
  `Ev.act` marker naming the action class and (for the power actions) the
  lamp argument.
* Python exceptions become the `Err` type: `Err.kpf` is the module's
  `KPFError` (an alias of `Exception`), and the remaining constructors
  model the distinct built-in Python exception classes that can arise
  (`FileNotFoundError`, `AttributeError`, `KeyError`, `ValueError`,
  `NameError`, `TimeoutError`).  Log-message text is carried where it is
  cheap; log formatting itself is out of scope, but an expression inside a
  log f-string that raises (such as `args.lamp`) is modelled faithfully.
* Python's `','.join` and `str.split(',')` are `joinComma`/`splitComma`
  below (note Python `''.split(',') = ['']`).
-/

namespace KPFCal

/-- Python exceptions raised (or raisable) by the module.  `kpf` is the
module's `KPFError = Exception`; the others are Python built-ins. -/
inductive Err where
  | kpf : String → Err
  | fileNotFound : String → Err
  | attributeError : String → Err
  | keyError : String → Err
  | valueError : String → Err
  | nameError : String → Err
  | timeout : Err
  deriving Repr, DecidableEq

/-- Trace events: device reads/writes of string keywords, reads/writes of
the numeric `kpfexpose.EXPOSURE` keyword, `waitFor` calls with their ktl
expression and timeout (centiseconds), the warm-up `sleep`, and a marker
for each `action.execute(...)` call made by the sequencer. -/
inductive Ev where
  | readE : String → String → Ev
  | writeE : String → String → Ev
  | readN : String → Int → Ev
  | writeN : String → Int → Ev
  | waitE : String → String → Int → Ev
  | sleepE : Int → Ev
  | act : String → String → Ev
  deriving Repr, DecidableEq

/-- True on the `act` markers. -/
def Ev.isActB : Ev → Bool
  | .act _ _ => true
  | _ => false

/-- True on the warm-up sleep event. -/
def Ev.isSleepB : Ev → Bool
  | .sleepE _ => true
  | _ => false

/-- True on device write events. -/
def Ev.isWriteB : Ev → Bool
  | .writeE _ _ => true
  | .writeN _ _ => true
  | _ => false

/-- The keyword a device event touches (`""` for markers and sleeps). -/
def Ev.kwOf : Ev → String
  | .readE k _ => k
  | .writeE k _ => k
  | .readN k _ => k
  | .writeN k _ => k
  | .waitE k _ _ => k
  | .sleepE _ => ""
  | .act _ _ => ""

/-- The device keyword store.  `store` is an association list from full
keyword names to string values (a fresh write is consed on; a read takes
the most recent binding, `""` if none).  `exposure` is the numeric value
of `kpfexpose.EXPOSURE` in centiseconds; `expose` is the
`kpfexpose.EXPOSE` detector-state code.  Writes to keywords in `faulty`
are dropped by the device (the write command is still recorded in the
trace; the device state simply does not change). -/
structure Dev where
  store : List (String × String)
  exposure : Int
  expose : Nat
  faulty : List String
  deriving Repr, DecidableEq

/-- Read a string-valued keyword. -/
def Dev.readS (d : Dev) (kw : String) : String :=
  (d.store.lookup kw).getD ""

/-- Write a string-valued keyword (dropped if the keyword is faulty). -/
def Dev.writeS (d : Dev) (kw : String) (v : String) : Dev :=
  if kw ∈ d.faulty then d else { d with store := (kw, v) :: d.store }

/-- Write the numeric `kpfexpose.EXPOSURE` keyword. -/
def Dev.writeExposure (d : Dev) (v : Int) : Dev :=
  if "kpfexpose.EXPOSURE" ∈ d.faulty then d else { d with exposure := v }

/-- Write `Start` to `kpfexpose.EXPOSE` (state code 1). -/
def Dev.writeExposeStart (d : Dev) : Dev :=
  if "kpfexpose.EXPOSE" ∈ d.faulty then d else { d with expose := 1 }

/-- The ascii representation of the `kpfexpose.EXPOSE` state codes. -/
def exposeName : Nat → String
  | 0 => "Ready"
  | 1 => "Start"
  | 2 => "InProgress"
  | 3 => "End"
  | 4 => "Readout"
  | _ => ""

/-- Python `s.split(',')` on the underlying character list.  As in
Python, the empty string splits to `[""]`. -/
def splitCommaChars : List Char → List (List Char)
  | [] => [[]]
  | c :: rest =>
    let r := splitCommaChars rest
    if c = ',' then [] :: r
    else
      match r with
      | [] => [[c]]
      | h :: t => (c :: h) :: t

/-- Python `s.split(',')`. -/
def splitComma (s : String) : List String :=
  (splitCommaChars s.data).map (fun cs => String.mk cs)

/-- Python `','.join(l)`. -/
def joinComma : List String → String
  | [] => ""
  | [x] => x
  | x :: rest => x ++ "," ++ joinComma rest

/-- A sequence-entry dictionary: one `Option` field per distinct dict key
string read anywhere in the module.  The code's `SetExptime.perform`
reads key `Exptime` while its `post_condition` reads key `exptime`;
these are distinct Python dict keys and hence distinct fields here.
`lamp` is the key of the single-entry dicts the sequencer passes to the
power actions.  Numeric values are centiseconds. -/
structure Entry where
  OctagonSource : Option String := none
  WarmUp : Option Int := none
  Exptime : Option Int := none
  exptime : Option Int := none
  ND1 : Option String := none
  ND2 : Option String := none
  TriggerRed : Option Bool := none
  TriggerGreen : Option Bool := none
  TriggerCaHK : Option Bool := none
  SSS_Science : Option Bool := none
  SSS_Sky : Option Bool := none
  SSS_SoCalSci : Option Bool := none
  SSS_SoCalCal : Option Bool := none
  SSS_CalSciSky : Option Bool := none
  TS_Scrambler : Option Bool := none
  TS_SimulCal : Option Bool := none
  TS_FF_Fiber : Option Bool := none
  TS_CaHK : Option Bool := none
  nExp : Option Nat := none
  lamp : Option String := none
  deriving Repr, DecidableEq

/-- Python attribute access `args.lamp` on a *dict* `args`: dicts do not
expose their keys as attributes, so this raises `AttributeError`
regardless of the dict's contents (source line
`log.info(f"  Powering off {args.lamp}")` in
`PowerOffCalSource.perform`, whose `args` is the dict
`{'lamp': lamp}`). -/
def Entry.attr_lamp (_e : Entry) : Except Err String :=
  .error (.attributeError "lamp")

/-- Render an optional string the way a Python f-string renders the
value: `None` for the absent case. -/
def optStr : Option String → String
  | none => "None"
  | some s => s

/-- Decidable equality for `Except` outcomes. -/
instance {ε α : Type} [DecidableEq ε] [DecidableEq α] : DecidableEq (Except ε α) := fun a b =>
  match a, b with
  | .ok x, .ok y =>
    if h : x = y then isTrue (by rw [h]) else isFalse (fun hh => by cases hh; exact h rfl)
  | .error x, .error y =>
    if h : x = y then isTrue (by rw [h]) else isFalse (fun hh => by cases hh; exact h rfl)
  | .ok _, .error _ => isFalse (fun hh => by cases hh)
  | .error _, .ok _ => isFalse (fun hh => by cases hh)

/-- The outcome of running one phase or action: the device-event trace it
produced, the device state it left behind, and either success or the
Python exception it raised. -/
structure Res where
  trace : List Ev
  dev : Dev
  result : Except Err Unit
  deriving Repr, DecidableEq

/-- Sequence two phases: the second runs only if the first succeeded;
traces concatenate; the first failure propagates (this is the semantics
of Python statements executed in order, each able to raise). -/
def seqR (r : Res) (f : Dev → Res) : Res :=
  match r.result with
  | .error _ => r
  | .ok _ =>
    let r2 := f r.dev
    ⟨r.trace ++ r2.trace, r2.dev, r2.result⟩

/-- Build an `execute` from the three phases, mirroring
`execute = pre_condition; perform; post_condition` with the first raised
exception propagating and skipping the remaining phases. -/
def mkExecute (pre perf post : Entry → Dev → Res) (args : Entry) (d : Dev) : Res :=
  seqR (seqR (pre args d) (perf args)) (post args)

/-- The no-op `pre_condition` shared by every action class (each is
literally `pass` in the source). -/
def passPre (_args : Entry) (d : Dev) : Res := ⟨[], d, .ok ()⟩

namespace SetExptime

/-- `SetExptime.perform`: if key `Exptime` is present, write it to
`kpfexpose.EXPOSURE`; otherwise do nothing. -/
def perform (args : Entry) (d : Dev) : Res :=
  match args.Exptime with
  | none => ⟨[], d, .ok ()⟩
  | some v => ⟨[Ev.writeN "kpfexpose.EXPOSURE" v], d.writeExposure v, .ok ()⟩

/-- `SetExptime.post_condition`: reads key `exptime` (lower case, exactly
as in the source); if present, re-read `kpfexpose.EXPOSURE` and raise
`KPFError` when the difference exceeds 0.1 s (10 centiseconds). -/
def post_condition (args : Entry) (d : Dev) : Res :=
  match args.exptime with
  | none => ⟨[], d, .ok ()⟩
  | some v =>
    let rb := d.exposure
    if 10 < |rb - v| then
      ⟨[Ev.readN "kpfexpose.EXPOSURE" rb], d,
        .error (.kpf ("Final exposure time mismatch: " ++ toString rb ++ " != " ++ toString v))⟩
    else ⟨[Ev.readN "kpfexpose.EXPOSURE" rb], d, .ok ()⟩

/-- `SetExptime.execute`. -/
def execute : Entry → Dev → Res :=
  mkExecute passPre perform post_condition

end SetExptime

namespace StartExposure

/-- `StartExposure.perform`: if the monitored `EXPOSE` value is positive,
wait (up to 300 s) for it to return to 0, then write `Start`. -/
def perform (_args : Entry) (d : Dev) : Res :=
  let pre := if 0 < d.expose then [Ev.waitE "kpfexpose.EXPOSE" "== 0" 30000] else []
  ⟨pre ++ [Ev.writeE "kpfexpose.EXPOSE" "Start"], d.writeExposeStart, .ok ()⟩

/-- `StartExposure.post_condition`: read `EXPOSURE` (binary) and
`EXPOSE`; if the exposure time exceeds 0.1 s, the status must be one of
`Start`, `InProgress`, `End`, `Readout`. -/
def post_condition (_args : Entry) (d : Dev) : Res :=
  let ex := d.exposure
  let st := exposeName d.expose
  let evs := [Ev.readN "kpfexpose.EXPOSURE" ex, Ev.readE "kpfexpose.EXPOSE" st]
  if 10 < ex ∧ ¬ (st ∈ (["Start", "InProgress", "End", "Readout"] : List String)) then
    ⟨evs, d, .error (.kpf ("Unexpected EXPOSE status = " ++ st))⟩
  else ⟨evs, d, .ok ()⟩

/-- `StartExposure.execute`. -/
def execute : Entry → Dev → Res :=
  mkExecute passPre perform post_condition

end StartExposure

namespace WaitForReadout

/-- `WaitForReadout.perform`: read the current exposure time, then wait
for `EXPOSE == 4` with timeout exposure + 10 s.  As in the source, the
boolean result of `waitFor` is discarded; in this (untimed) store model
the detector state does not change during the wait. -/
def perform (_args : Entry) (d : Dev) : Res :=
  ⟨[Ev.readN "kpfexpose.EXPOSURE" d.exposure,
    Ev.waitE "kpfexpose.EXPOSE" "== 4" (d.exposure + 1000)], d, .ok ()⟩

/-- `WaitForReadout.post_condition`: the status string must equal
`Readout` exactly. -/
def post_condition (_args : Entry) (d : Dev) : Res :=
  let st := exposeName d.expose
  if st ≠ "Readout" then
    ⟨[Ev.readE "kpfexpose.EXPOSE" st], d,
      .error (.kpf ("Final detector state mismatch: " ++ st ++ " != Readout"))⟩
  else ⟨[Ev.readE "kpfexpose.EXPOSE" st], d, .ok ()⟩

/-- `WaitForReadout.execute`. -/
def execute : Entry → Dev → Res :=
  mkExecute passPre perform post_condition

end WaitForReadout

namespace WaitForReady

/-- `WaitForReady.perform`: wait for `EXPOSE == 0` with timeout 60 s;
the boolean result is discarded. -/
def perform (_args : Entry) (d : Dev) : Res :=
  ⟨[Ev.waitE "kpfexpose.EXPOSE" "== 0" 6000], d, .ok ()⟩

/-- `WaitForReady.post_condition`: the status string must equal `Ready`
exactly. -/
def post_condition (_args : Entry) (d : Dev) : Res :=
  let st := exposeName d.expose
  if st ≠ "Ready" then
    ⟨[Ev.readE "kpfexpose.EXPOSE" st], d,
      .error (.kpf ("Final detector state mismatch: " ++ st ++ " != Ready"))⟩
  else ⟨[Ev.readE "kpfexpose.EXPOSE" st], d, .ok ()⟩

/-- `WaitForReady.execute`. -/
def execute : Entry → Dev → Res :=
  mkExecute passPre perform post_condition

end WaitForReady

/-- The hard-coded lamp-to-outlet mapping shared by `PowerOnCalSource`
and `PowerOffCalSource` (`self.ports`); `dict.get` returns `None` for
unknown lamps, as for lamps explicitly mapped to `None`. -/
def powerPorts (l : String) : Option String :=
  if l = "EtalonFiber" then none
  else if l = "BrdbandFiber" then some "OUTLET_CAL2_2"
  else if l = "U_gold" then some "OUTLET_CAL2_7"
  else if l = "U_daily" then some "OUTLET_CAL2_8"
  else if l = "Th_daily" then some "OUTLET_CAL2_6"
  else if l = "Th_gold" then some "OUTLET_CAL2_5"
  else if l = "SoCal-CalFib" then none
  else if l = "LFCFiber" then none
  else none

/-- `self.ports.get(args.get('lamp', None))`. -/
def portOf (args : Entry) : Option String :=
  match args.lamp with
  | none => none
  | some l => powerPorts l

namespace PowerOnCalSource

/-- `PowerOnCalSource.perform`: resolve lamp to outlet; no outlet means
no-op; if the outlet already reads `On`, only the two reads happen;
otherwise unlock, write `On`, lock. -/
def perform (args : Entry) (d : Dev) : Res :=
  match portOf args with
  | none => ⟨[], d, .ok ()⟩
  | some port =>
    let pname := d.readS ("kpfpower." ++ port ++ "_NAME")
    let st := d.readS ("kpfpower." ++ port)
    let reads := [Ev.readE ("kpfpower." ++ port ++ "_NAME") pname,
                  Ev.readE ("kpfpower." ++ port) st]
    if st = "On" then ⟨reads, d, .ok ()⟩
    else
      let d1 := d.writeS ("kpfpower." ++ port ++ "_LOCK") "Unlocked"
      let d2 := d1.writeS ("kpfpower." ++ port) "On"
      let d3 := d2.writeS ("kpfpower." ++ port ++ "_LOCK") "Locked"
      ⟨reads ++ [Ev.writeE ("kpfpower." ++ port ++ "_LOCK") "Unlocked",
                 Ev.writeE ("kpfpower." ++ port) "On",
                 Ev.writeE ("kpfpower." ++ port ++ "_LOCK") "Locked"], d3, .ok ()⟩

/-- `PowerOnCalSource.post_condition`: for a mapped outlet, the outlet
state must read `On`. -/
def post_condition (args : Entry) (d : Dev) : Res :=
  match portOf args with
  | none => ⟨[], d, .ok ()⟩
  | some port =>
    let pname := d.readS ("kpfpower." ++ port ++ "_NAME")
    let st := d.readS ("kpfpower." ++ port)
    let reads := [Ev.readE ("kpfpower." ++ port ++ "_NAME") pname,
                  Ev.readE ("kpfpower." ++ port) st]
    if st ≠ "On" then
      ⟨reads, d, .error (.kpf ("Final power state mismatch: " ++ st ++ " != On"))⟩
    else ⟨reads, d, .ok ()⟩

/-- `PowerOnCalSource.execute`. -/
def execute : Entry → Dev → Res :=
  mkExecute passPre perform post_condition

end PowerOnCalSource

namespace PowerOffCalSource

/-- `PowerOffCalSource.perform`: for a mapped outlet, the source first
reads the outlet's `_NAME` keyword and then evaluates
`log.info(f"  Powering off {args.lamp}")`.  `args` here is a dict, so
`args.lamp` raises `AttributeError` before any write is issued; the
unlock / `Off` / lock writes that follow in the source are the
(unreachable) `.ok` branch of `attr_lamp`. -/
def perform (args : Entry) (d : Dev) : Res :=
  match portOf args with
  | none => ⟨[], d, .ok ()⟩
  | some port =>
    let pname := d.readS ("kpfpower." ++ port ++ "_NAME")
    let reads := [Ev.readE ("kpfpower." ++ port ++ "_NAME") pname]
    match args.attr_lamp with
    | .error e => ⟨reads, d, .error e⟩
    | .ok _ =>
      let d1 := d.writeS ("kpfpower." ++ port ++ "_LOCK") "Unlocked"
      let d2 := d1.writeS ("kpfpower." ++ port) "Off"
      let d3 := d2.writeS ("kpfpower." ++ port ++ "_LOCK") "Locked"
      ⟨reads ++ [Ev.writeE ("kpfpower." ++ port ++ "_LOCK") "Unlocked",
                 Ev.writeE ("kpfpower." ++ port) "Off",
                 Ev.writeE ("kpfpower." ++ port ++ "_LOCK") "Locked"], d3, .ok ()⟩

/-- `PowerOffCalSource.post_condition`: for a mapped outlet, the outlet
state must read `Off`. -/
def post_condition (args : Entry) (d : Dev) : Res :=
  match portOf args with
  | none => ⟨[], d, .ok ()⟩
  | some port =>
    let pname := d.readS ("kpfpower." ++ port ++ "_NAME")
    let st := d.readS ("kpfpower." ++ port)
    let reads := [Ev.readE ("kpfpower." ++ port ++ "_NAME") pname,
                  Ev.readE ("kpfpower." ++ port) st]
    if st ≠ "Off" then
      ⟨reads, d, .error (.kpf ("Final power state mismatch: " ++ st ++ " != Off"))⟩
    else ⟨reads, d, .ok ()⟩

/-- `PowerOffCalSource.execute`. -/
def execute : Entry → Dev → Res :=
  mkExecute passPre perform post_condition

end PowerOffCalSource

namespace SetCalSource

/-- `SetCalSource.perform`: if `OctagonSource` is present, write it to
`kpfmot.OCTAGON`. -/
def perform (args : Entry) (d : Dev) : Res :=
  match args.OctagonSource with
  | none => ⟨[], d, .ok ()⟩
  | some t => ⟨[Ev.writeE "kpfmot.OCTAGON" t], d.writeS "kpfmot.OCTAGON" t, .ok ()⟩

/-- `SetCalSource.post_condition`: reads `kpfmot.OCTAGON`
*unconditionally* and compares it to the (possibly absent) target with
Python `!=`; a string readback never equals `None`, so an absent target
always mismatches. -/
def post_condition (args : Entry) (d : Dev) : Res :=
  let target := args.OctagonSource
  let final_pos := d.readS "kpfmot.OCTAGON"
  if some final_pos ≠ target then
    ⟨[Ev.readE "kpfmot.OCTAGON" final_pos], d,
      .error (.kpf ("Final octagon position mismatch: " ++ final_pos ++ " != " ++ optStr target))⟩
  else ⟨[Ev.readE "kpfmot.OCTAGON" final_pos], d, .ok ()⟩

/-- `SetCalSource.execute`. -/
def execute : Entry → Dev → Res :=
  mkExecute passPre perform post_condition

end SetCalSource

namespace SetND1

/-- `SetND1.perform`: if `ND1` is present, write it to `kpfmot.ND1POS`. -/
def perform (args : Entry) (d : Dev) : Res :=
  match args.ND1 with
  | none => ⟨[], d, .ok ()⟩
  | some t => ⟨[Ev.writeE "kpfmot.ND1POS" t], d.writeS "kpfmot.ND1POS" t, .ok ()⟩

/-- `SetND1.post_condition`: only checked when `ND1` was specified. -/
def post_condition (args : Entry) (d : Dev) : Res :=
  match args.ND1 with
  | none => ⟨[], d, .ok ()⟩
  | some t =>
    let final_pos := d.readS "kpfmot.ND1POS"
    if final_pos ≠ t then
      ⟨[Ev.readE "kpfmot.ND1POS" final_pos], d,
        .error (.kpf ("Final ND1 position mismatch: " ++ final_pos ++ " != " ++ t))⟩
    else ⟨[Ev.readE "kpfmot.ND1POS" final_pos], d, .ok ()⟩

/-- `SetND1.execute`. -/
def execute : Entry → Dev → Res :=
  mkExecute passPre perform post_condition

end SetND1

namespace SetND2

/-- `SetND2.perform`: if `ND2` is present, write it to `kpfmot.ND2POS`. -/
def perform (args : Entry) (d : Dev) : Res :=
  match args.ND2 with
  | none => ⟨[], d, .ok ()⟩
  | some t => ⟨[Ev.writeE "kpfmot.ND2POS" t], d.writeS "kpfmot.ND2POS" t, .ok ()⟩

/-- `SetND2.post_condition`: only checked when `ND2` was specified. -/
def post_condition (args : Entry) (d : Dev) : Res :=
  match args.ND2 with
  | none => ⟨[], d, .ok ()⟩
  | some t =>
    let final_pos := d.readS "kpfmot.ND2POS"
    if final_pos ≠ t then
      ⟨[Ev.readE "kpfmot.ND2POS" final_pos], d,
        .error (.kpf ("Final ND2 position mismatch: " ++ final_pos ++ " != " ++ t))⟩
    else ⟨[Ev.readE "kpfmot.ND2POS" final_pos], d, .ok ()⟩

/-- `SetND2.execute`. -/
def execute : Entry → Dev → Res :=
  mkExecute passPre perform post_condition

end SetND2

namespace SetTriggeredDetectors

/-- The comma-joined detector list built by
`SetTriggeredDetectors.perform` from the three boolean flags. -/
def detString (args : Entry) : String :=
  joinComma ((if args.TriggerRed.getD false then ["Red"] else []) ++
             (if args.TriggerGreen.getD false then ["Green"] else []) ++
             (if args.TriggerCaHK.getD false then ["Ca_HK"] else []))

/-- `SetTriggeredDetectors.perform`: always writes the comma-joined list
(the empty string when no flag is true) to `kpfexpose.TRIG_TARG`. -/
def perform (args : Entry) (d : Dev) : Res :=
  let s := detString args
  ⟨[Ev.writeE "kpfexpose.TRIG_TARG" s], d.writeS "kpfexpose.TRIG_TARG" s, .ok ()⟩

/-- `SetTriggeredDetectors.post_condition`: split the readback on commas
and compare membership of each name against the requested flag. -/
def post_condition (args : Entry) (d : Dev) : Res :=
  let s := d.readS "kpfexpose.TRIG_TARG"
  let dl := splitComma s
  let evs := [Ev.readE "kpfexpose.TRIG_TARG" s]
  if args.TriggerRed.getD false ≠ dl.contains "Red" then
    ⟨evs, d, .error (.kpf "Final Red detector trigger mismatch")⟩
  else if args.TriggerGreen.getD false ≠ dl.contains "Green" then
    ⟨evs, d, .error (.kpf "Final Green detector trigger mismatch")⟩
  else if args.TriggerCaHK.getD false ≠ dl.contains "Ca_HK" then
    ⟨evs, d, .error (.kpf "Final Ca HK detector trigger mismatch")⟩
  else ⟨evs, d, .ok ()⟩

/-- `SetTriggeredDetectors.execute`. -/
def execute : Entry → Dev → Res :=
  mkExecute passPre perform post_condition

end SetTriggeredDetectors

namespace SetSourceSelectShutters

/-- The comma-joined shutter list built by
`SetSourceSelectShutters.perform` from the five boolean flags. -/
def shutterString (args : Entry) : String :=
  joinComma ((if args.SSS_Science.getD false then ["SciSelect"] else []) ++
             (if args.SSS_Sky.getD false then ["SkySelect"] else []) ++
             (if args.SSS_SoCalSci.getD false then ["SoCalSci"] else []) ++
             (if args.SSS_SoCalCal.getD false then ["SoCalCal"] else []) ++
             (if args.SSS_CalSciSky.getD false then ["Cal_SciSky"] else []))

/-- `SetSourceSelectShutters.perform`: always writes the comma-joined
list to `kpfexpose.SRC_SHUTTERS`. -/
def perform (args : Entry) (d : Dev) : Res :=
  let s := shutterString args
  ⟨[Ev.writeE "kpfexpose.SRC_SHUTTERS" s], d.writeS "kpfexpose.SRC_SHUTTERS" s, .ok ()⟩

/-- `SetSourceSelectShutters.post_condition`: split the readback and
membership-test each of the five shutters. -/
def post_condition (args : Entry) (d : Dev) : Res :=
  let s := d.readS "kpfexpose.SRC_SHUTTERS"
  let dl := splitComma s
  let evs := [Ev.readE "kpfexpose.SRC_SHUTTERS" s]
  if args.SSS_Science.getD false ≠ dl.contains "SciSelect" then
    ⟨evs, d, .error (.kpf "Final Science select shutter mismatch")⟩
  else if args.SSS_Sky.getD false ≠ dl.contains "SkySelect" then
    ⟨evs, d, .error (.kpf "Final Sky select shutter mismatch")⟩
  else if args.SSS_SoCalSci.getD false ≠ dl.contains "SoCalSci" then
    ⟨evs, d, .error (.kpf "Final SoCalSci select shutter mismatch")⟩
  else if args.SSS_SoCalCal.getD false ≠ dl.contains "SoCalCal" then
    ⟨evs, d, .error (.kpf "Final SoCalCal select shutter mismatch")⟩
  else if args.SSS_CalSciSky.getD false ≠ dl.contains "Cal_SciSky" then
    ⟨evs, d, .error (.kpf "Final Cal_SciSky select shutter mismatch")⟩
  else ⟨evs, d, .ok ()⟩

/-- `SetSourceSelectShutters.execute`. -/
def execute : Entry → Dev → Res :=
  mkExecute passPre perform post_condition

end SetSourceSelectShutters

namespace SetTimedShutters

/-- The comma-joined timed-shutter list built by
`SetTimedShutters.perform` from the four boolean flags. -/
def shutterString (args : Entry) : String :=
  joinComma ((if args.TS_Scrambler.getD false then ["Scrambler"] else []) ++
             (if args.TS_SimulCal.getD false then ["SimulCal"] else []) ++
             (if args.TS_FF_Fiber.getD false then ["FF_Fiber"] else []) ++
             (if args.TS_CaHK.getD false then ["Ca_HK"] else []))

/-- `SetTimedShutters.perform`: always writes the comma-joined list to
`kpfexpose.TIMED_SHUTTERS`. -/
def perform (args : Entry) (d : Dev) : Res :=
  let s := shutterString args
  ⟨[Ev.writeE "kpfexpose.TIMED_SHUTTERS" s], d.writeS "kpfexpose.TIMED_SHUTTERS" s, .ok ()⟩

/-- `SetTimedShutters.post_condition`: split the readback and
membership-test each of the four timed shutters. -/
def post_condition (args : Entry) (d : Dev) : Res :=
  let s := d.readS "kpfexpose.TIMED_SHUTTERS"
  let dl := splitComma s
  let evs := [Ev.readE "kpfexpose.TIMED_SHUTTERS" s]
  if args.TS_Scrambler.getD false ≠ dl.contains "Scrambler" then
    ⟨evs, d, .error (.kpf "Final Scrambler timed shutter mismatch")⟩
  else if args.TS_SimulCal.getD false ≠ dl.contains "SimulCal" then
    ⟨evs, d, .error (.kpf "Final SimulCal timed shutter mismatch")⟩
  else if args.TS_FF_Fiber.getD false ≠ dl.contains "FF_Fiber" then
    ⟨evs, d, .error (.kpf "Final FF_Fiber timed shutter mismatch")⟩
  else if args.TS_CaHK.getD false ≠ dl.contains "Ca_HK" then
    ⟨evs, d, .error (.kpf "Final Ca_HK timed shutter mismatch")⟩
  else ⟨evs, d, .ok ()⟩

/-- `SetTimedShutters.execute`. -/
def execute : Entry → Dev → Res :=
  mkExecute passPre perform post_condition

end SetTimedShutters

/-- The timed device model used for the wait/timeout claims: `exposure`
is the current `kpfexpose.EXPOSURE` value (centiseconds); the
`kpfexpose.EXPOSE` signal is piecewise constant, starting at `init` and
switching to state `s` at each transition time `(t, s)` in `trans`
(absolute centisecond timestamps, listed in increasing order); `now` is
the current time. -/
structure TDev where
  exposure : Int
  init : Nat
  trans : List (Int × Nat)
  now : Int
  deriving Repr, DecidableEq

/-- The `EXPOSE` state code at time `t`: the state set by the last
transition at or before `t`, else the initial state. -/
def TDev.stateAt (d : TDev) (t : Int) : Nat :=
  d.trans.foldl (fun s p => if p.1 ≤ t then p.2 else s) d.init

/-- Candidate moments at which a `waitFor` predicate can first become
true: the present moment and the signal's transition times. -/
def TDev.waitTimes (d : TDev) : List Int :=
  d.now :: d.trans.map Prod.fst

/-- The moments within `timeout` of now at which the signal equals
`target`. -/
def TDev.hits (d : TDev) (target : Nat) (timeout : Int) : List Int :=
  d.waitTimes.filter (fun t => d.now ≤ t ∧ t ≤ d.now + timeout ∧ d.stateAt t = target)

/-- ktl `waitFor('== target', timeout)`: block until the first moment the
signal equals `target`, returning `true` and that moment; if no such
moment occurs within the timeout, return `false` after the full timeout
has elapsed.  The boolean is exactly ktl's return value — `waitFor`
never raises on timeout. -/
def TDev.waitForT (d : TDev) (target : Nat) (timeout : Int) : Bool × Int :=
  match (d.hits target timeout).min? with
  | some t => (true, t)
  | none => (false, d.now + timeout)

/-- Outcome triple for the timed model. -/
structure TRes where
  trace : List Ev
  dev : TDev
  result : Except Err Unit
  deriving Repr, DecidableEq

/-- Sequencing for the timed model (same semantics as `seqR`). -/
def seqT (r : TRes) (f : TDev → TRes) : TRes :=
  match r.result with
  | .error _ => r
  | .ok _ =>
    let r2 := f r.dev
    ⟨r.trace ++ r2.trace, r2.dev, r2.result⟩

namespace WaitForReadoutT

/-- `WaitForReadout.perform` in the timed model: read the current
exposure time `T`, then `waitFor('== 4', timeout=T+10s)`; the boolean
result is discarded exactly as in the source, so a timeout passes
silently and only advances the clock. -/
def perform (_args : Entry) (d : TDev) : TRes :=
  let ex := d.exposure
  let w := d.waitForT 4 (ex + 1000)
  ⟨[Ev.readN "kpfexpose.EXPOSURE" ex, Ev.waitE "kpfexpose.EXPOSE" "== 4" (ex + 1000)],
   { d with now := w.2 }, .ok ()⟩

/-- `WaitForReadout.post_condition` in the timed model: re-read `EXPOSE`
(at the moment the wait returned) and require exactly `Readout`. -/
def post_condition (_args : Entry) (d : TDev) : TRes :=
  let st := exposeName (d.stateAt d.now)
  if st ≠ "Readout" then
    ⟨[Ev.readE "kpfexpose.EXPOSE" st], d,
      .error (.kpf ("Final detector state mismatch: " ++ st ++ " != Readout"))⟩
  else ⟨[Ev.readE "kpfexpose.EXPOSE" st], d, .ok ()⟩

/-- `WaitForReadout.execute` in the timed model. -/
def execute (args : Entry) (d : TDev) : TRes :=
  seqT (seqT ⟨[], d, .ok ()⟩ (perform args)) (post_condition args)

end WaitForReadoutT

/-- The argparse namespace built in `__main__`: its attributes are
exactly `files`, `count`, `lampsoff` and `noexp`. -/
structure Args where
  files : List String
  count : Nat
  lampsoff : Bool
  noexp : Bool
  deriving Repr, DecidableEq

/-- Python attribute access `args.file` on the argparse namespace: the
parser defines no `file` attribute (only `files`), so this raises
`AttributeError` (source line
`msg = f"Input file {args.file} does not exist"` in
`RunCalSequence.pre_condition`). -/
def Args.attr_file (_a : Args) : Except Err String :=
  .error (.attributeError "file")

/-- Python `entry['OctagonSource']` (raises `KeyError` when absent). -/
def Entry.itemOctagonSource (e : Entry) : Except Err String :=
  match e.OctagonSource with
  | some v => .ok v
  | none => .error (.keyError "OctagonSource")

/-- Python `entry['WarmUp']` (raises `KeyError` when absent). -/
def Entry.itemWarmUp (e : Entry) : Except Err Int :=
  match e.WarmUp with
  | some v => .ok v
  | none => .error (.keyError "WarmUp")

/-- The dict `{'lamp': lamp}` the sequencer passes to the power
actions. -/
def lampEntry (l : String) : Entry := { lamp := some l }

/-- `RunCalSequence.pre_condition`: check each input file for existence
(`fs` is the set of files that exist, standing in for the filesystem).
On the first missing file the source builds the message from
`args.file`, which raises `AttributeError` before the intended
`FileNotFoundError` can be raised; the `FileNotFoundError` branch is the
(unreachable) `.ok` case of `attr_file`. -/
def RunCalSequence.pre_condition (args : Args) (fs : List String) : Except Err Unit :=
  match args.files.find? (fun f => ! fs.contains f) with
  | none => .ok ()
  | some _missing =>
    match args.attr_file with
    | .error e => .error e
    | .ok s => .error (.fileNotFound ("Input file " ++ s ++ " does not exist"))

/-- The `for lamp in lamps:` power-on loop of `RunCalSequence.perform`;
each iteration is one `PowerOnCalSource().execute({'lamp': lamp})` call,
recorded with an `act` marker. -/
def powerOnPhase : List String → Dev → Res
  | [], d => ⟨[], d, .ok ()⟩
  | l :: rest, d =>
    let r := PowerOnCalSource.execute (lampEntry l) d
    match r.result with
    | .error e => ⟨Ev.act "PowerOnCalSource" l :: r.trace, r.dev, .error e⟩
    | .ok _ =>
      let r2 := powerOnPhase rest r.dev
      ⟨Ev.act "PowerOnCalSource" l :: r.trace ++ r2.trace, r2.dev, r2.result⟩

/-- The `if args.lampsoff:` power-off loop of `RunCalSequence.perform`. -/
def powerOffPhase : List String → Dev → Res
  | [], d => ⟨[], d, .ok ()⟩
  | l :: rest, d =>
    let r := PowerOffCalSource.execute (lampEntry l) d
    match r.result with
    | .error e => ⟨Ev.act "PowerOffCalSource" l :: r.trace, r.dev, .error e⟩
    | .ok _ =>
      let r2 := powerOffPhase rest r.dev
      ⟨Ev.act "PowerOffCalSource" l :: r.trace ++ r2.trace, r2.dev, r2.result⟩

/-- Run one `action.execute(sequence)` call of the sequencer's fixed
chain: skipped entirely if an earlier step already raised; otherwise
record the `act` marker and the action's events. -/
def stepA (name : String) (f : Entry → Dev → Res) (e : Entry) (r : Res) : Res :=
  match r.result with
  | .error _ => r
  | .ok _ =>
    let r2 := f e r.dev
    ⟨r.trace ++ Ev.act name "" :: r2.trace, r2.dev, r2.result⟩

/-- The first three configuration steps of the per-entry chain
(cal source, source-select shutters, timed shutters), in source order. -/
def chain3 (e : Entry) (d : Dev) : Res :=
  stepA "SetTimedShutters" SetTimedShutters.execute e
    (stepA "SetSourceSelectShutters" SetSourceSelectShutters.execute e
      (stepA "SetCalSource" SetCalSource.execute e ⟨[], d, .ok ()⟩))

/-- The chain through the `SetND1` step. -/
def chain4 (e : Entry) (d : Dev) : Res :=
  stepA "SetND1" SetND1.execute e (chain3 e d)

/-- The `for j in range(nexp):` exposure loop: wait-ready, then (unless
`--noexp` was given) start-exposure and wait-readout. -/
def expLoop (noexp : Bool) (e : Entry) : Nat → Dev → Res
  | 0, d => ⟨[], d, .ok ()⟩
  | k + 1, d =>
    let r := stepA "WaitForReady" WaitForReady.execute e ⟨[], d, .ok ()⟩
    let r := if noexp then r else stepA "StartExposure" StartExposure.execute e r
    let r := if noexp then r else stepA "WaitForReadout" WaitForReadout.execute e r
    seqR r (expLoop noexp e k)

/-- The full per-entry body of the sequencer's inner loop: the fixed
configuration chain followed by the exposure loop (`nExp` defaults
to 1). -/
def runOne (noexp : Bool) (e : Entry) (d : Dev) : Res :=
  let r := chain4 e d
  let r := stepA "SetND2" SetND2.execute e r
  let r := stepA "SetExptime" SetExptime.execute e r
  let r := stepA "WaitForReady" WaitForReady.execute e r
  let r := stepA "SetTriggeredDetectors" SetTriggeredDetectors.execute e r
  seqR r (expLoop noexp e (e.nExp.getD 1))

/-- `for i, sequence in enumerate(sequences):`. -/
def runEntries (noexp : Bool) : List Entry → Dev → Res
  | [], d => ⟨[], d, .ok ()⟩
  | e :: rest, d => seqR (runOne noexp e d) (runEntries noexp rest)

/-- `for count in range(0, args.count):`. -/
def runRepeats (noexp : Bool) (es : List Entry) : Nat → Dev → Res
  | 0, d => ⟨[], d, .ok ()⟩
  | k + 1, d => seqR (runEntries noexp es d) (runRepeats noexp es k)

/-- `RunCalSequence.perform`.  `load` stands for the out-of-scope YAML
parsing (`yaml.load(open(file))`), mapping each file name to its parsed
entry.  In source order: collect `entry['OctagonSource']` over all
entries, deduplicate (Python `set`), power on each distinct lamp,
compute `max(entry['WarmUp'])` (Python `max([])` raises `ValueError`),
sleep once, run the repeat loop, optionally power the lamps off, and
finally run `WaitForReady` on the loop variable `sequence` — which is
unbound (`NameError`) if the repeat loop never ran. -/
def RunCalSequence.perform (args : Args) (load : String → Entry) (d : Dev) : Res :=
  let sequences := args.files.map load
  match sequences.mapM Entry.itemOctagonSource with
  | .error e => ⟨[], d, .error e⟩
  | .ok lampNames =>
    let lamps := lampNames.dedup
    let rp := powerOnPhase lamps d
    match rp.result with
    | .error _ => rp
    | .ok _ =>
      match sequences.mapM Entry.itemWarmUp with
      | .error e => ⟨rp.trace, rp.dev, .error e⟩
      | .ok warmUps =>
        match warmUps.max? with
        | none => ⟨rp.trace, rp.dev, .error (.valueError "max() arg is an empty sequence")⟩
        | some w =>
          let rl := runRepeats args.noexp sequences args.count rp.dev
          match rl.result with
          | .error e => ⟨rp.trace ++ Ev.sleepE w :: rl.trace, rl.dev, .error e⟩
          | .ok _ =>
            let roff := if args.lampsoff then powerOffPhase lamps rl.dev
                        else ⟨[], rl.dev, .ok ()⟩
            match roff.result with
            | .error e =>
              ⟨rp.trace ++ Ev.sleepE w :: rl.trace ++ roff.trace, roff.dev, .error e⟩
            | .ok _ =>
              match args.count, sequences.getLast? with
              | 0, _ => ⟨rp.trace ++ Ev.sleepE w :: rl.trace ++ roff.trace, roff.dev,
                          .error (.nameError "sequence")⟩
              | _ + 1, none => ⟨rp.trace ++ Ev.sleepE w :: rl.trace ++ roff.trace, roff.dev,
                          .error (.nameError "sequence")⟩
              | _ + 1, some eLast =>
                let rw := stepA "WaitForReady" WaitForReady.execute eLast
                            ⟨[], roff.dev, .ok ()⟩
                ⟨rp.trace ++ Ev.sleepE w :: rl.trace ++ roff.trace ++ rw.trace, rw.dev,
                  rw.result⟩

/-- `RunCalSequence.post_condition`: the detector must read `Ready`. -/
def RunCalSequence.post_condition (d : Dev) : Res :=
  let st := exposeName d.expose
  if st ≠ "Ready" then
    ⟨[Ev.readE "kpfexpose.EXPOSE" st], d,
      .error (.kpf ("Final detector state mismatch: " ++ st ++ " != Ready"))⟩
  else ⟨[Ev.readE "kpfexpose.EXPOSE" st], d, .ok ()⟩

/-- `RunCalSequence.execute`: pre-condition (file existence), then
perform, then post-condition, the first failure propagating.  The
pre-condition touches no device state and emits no device events. -/
def RunCalSequence.execute (args : Args) (load : String → Entry) (fs : List String)
    (d : Dev) : Res :=
  match RunCalSequence.pre_condition args fs with
  | .error e => ⟨[], d, .error e⟩
  | .ok _ =>
    let r := RunCalSequence.perform args load d
    match r.result with
    | .error e => ⟨r.trace, r.dev, .error e⟩
    | .ok _ =>
      let r2 := RunCalSequence.post_condition r.dev
      ⟨r.trace ++ r2.trace, r2.dev, r2.result⟩

/-- An event that is neither a sleep nor a `PowerOnCalSource` marker. -/
def notPowerOnOrSleep (ev : Ev) : Prop :=
  ev.isSleepB = false ∧ ∀ l, ev ≠ Ev.act "PowerOnCalSource" l
/-- An event touching none of the keywords used by `SetND2` or any step
after it in the chain. -/
def kwLaterFree (ev : Ev) : Prop :=
  ev.kwOf ≠ "kpfmot.ND2POS" ∧ ev.kwOf ≠ "kpfexpose.EXPOSURE" ∧
  ev.kwOf ≠ "kpfexpose.EXPOSE" ∧ ev.kwOf ≠ "kpfexpose.TRIG_TARG"
/-- The concrete entry for the `SetND1` mismatch scenario: an unmapped
lamp, no warm-up key needed at chain level, and `ND1` requested at
`OD 0.1`. -/
def c9entry : Entry := { OctagonSource := some "EtalonFiber", ND1 := some "OD 0.1" }
/-- The concrete device for the `SetND1` mismatch scenario: the ND1
wheel is stuck (`kpfmot.ND1POS` is faulty) and reads `OD 4`. -/
def c9dev : Dev := ⟨[("kpfmot.ND1POS", "OD 4")], 0, 0, ["kpfmot.ND1POS"]⟩
/-- The detector subset selected by three boolean flags, in the order
the source builds it. -/
def trigList (r g c : Bool) : List String :=
  (if r then ["Red"] else []) ++ (if g then ["Green"] else []) ++ (if c then ["Ca_HK"] else [])
/-- The source-select shutter subset selected by five boolean flags. -/
def sssList (sci sky socalsci socalcal calscisky : Bool) : List String :=
  (if sci then ["SciSelect"] else []) ++ (if sky then ["SkySelect"] else []) ++
  (if socalsci then ["SoCalSci"] else []) ++ (if socalcal then ["SoCalCal"] else []) ++
  (if calscisky then ["Cal_SciSky"] else [])
/-- The timed-shutter subset selected by four boolean flags. -/
def tsList (scrambler simulcal ff cahk : Bool) : List String :=
  (if scrambler then ["Scrambler"] else []) ++ (if simulcal then ["SimulCal"] else []) ++
  (if ff then ["FF_Fiber"] else []) ++ (if cahk then ["Ca_HK"] else [])
/-- The loader for the end-to-end warm-up scenario: two files, lamps
`U_gold` (warm-up 30 s) and `Th_daily` (warm-up 45 s). -/
def c8load : String → Entry := fun f =>
  if f = "a.yaml" then { OctagonSource := some "U_gold", WarmUp := some 3000 }
  else { OctagonSource := some "Th_daily", WarmUp := some 4500 }
/-- The invocation for the end-to-end warm-up scenario: both files, one
repeat, no lamps-off, dry run. -/
def c8args : Args := ⟨["a.yaml", "b.yaml"], 1, false, true⟩

/-! ### Helper lemmas about the device store -/

theorem Dev.faulty_writeS (d : Dev) (kw v : String) : (d.writeS kw v).faulty = d.faulty := by
  unfold Dev.writeS
  split <;> rfl

theorem Dev.readS_writeS_self (d : Dev) (kw v : String) (h : kw ∉ d.faulty) :
    (d.writeS kw v).readS kw = v := by
  unfold Dev.writeS Dev.readS
  rw [if_neg h]
  simp [List.lookup]

theorem Dev.readS_writeS_ne (d : Dev) (kw kw' v : String) (h : kw' ≠ kw) :
    (d.writeS kw' v).readS kw = d.readS kw := by
  unfold Dev.writeS Dev.readS
  split
  · rfl
  · have hb : (kw == kw') = false := beq_eq_false_iff_ne.mpr (fun hh => h hh.symm)
    simp only [List.lookup, hb]

theorem String.ne_append_LOCK (s : String) : s ++ "_LOCK" ≠ s := by
  intro h
  have h2 := congrArg String.length h
  rw [String.length_append] at h2
  have h3 : ("_LOCK" : String).length = 5 := by decide
  omega

theorem exposeName_eq_readout_iff (n : Nat) : exposeName n = "Readout" ↔ n = 4 := by
  constructor
  · intro h
    match n with
    | 0 => exact absurd h (by decide)
    | 1 => exact absurd h (by decide)
    | 2 => exact absurd h (by decide)
    | 3 => exact absurd h (by decide)
    | 4 => rfl
    | m + 5 => exact absurd h (by simp [exposeName])
  · intro h
    subst h
    rfl

/-! ### Trace-shape machinery -/

/-- Events in a trace of `seqR` all satisfy `P` when the two phases'
events do. -/
theorem seqR_trace_forall {P : Ev → Prop} {r : Res} {f : Dev → Res}
    (h1 : ∀ ev ∈ r.trace, P ev) (h2 : ∀ d, ∀ ev ∈ (f d).trace, P ev) :
    ∀ ev ∈ (seqR r f).trace, P ev := by
  unfold seqR
  match hres : r.result with
  | .error _ => exact h1
  | .ok _ =>
    intro ev hev
    simp only at hev
    rcases List.mem_append.mp hev with h | h
    · exact h1 ev h
    · exact h2 r.dev ev h

/-- Events in a trace of `mkExecute` all satisfy `P` when the perform
and post-condition events do (the shared pre-condition emits none). -/
theorem mkExecute_trace_forall {P : Ev → Prop} {perf post : Entry → Dev → Res}
    (args : Entry) (d : Dev)
    (h1 : ∀ d', ∀ ev ∈ (perf args d').trace, P ev)
    (h2 : ∀ d', ∀ ev ∈ (post args d').trace, P ev) :
    ∀ ev ∈ (mkExecute passPre perf post args d).trace, P ev := by
  unfold mkExecute
  exact seqR_trace_forall (seqR_trace_forall (by simp [passPre]) h1) h2

/-- Events in a trace of `stepA` all satisfy `P` when the marker, the
action's events, and the incoming trace do. -/
theorem stepA_trace_forall {P : Ev → Prop} {f : Entry → Dev → Res} {name : String}
    {e : Entry} {r : Res}
    (hm : P (Ev.act name ""))
    (hf : ∀ d, ∀ ev ∈ (f e d).trace, P ev)
    (hr : ∀ ev ∈ r.trace, P ev) :
    ∀ ev ∈ (stepA name f e r).trace, P ev := by
  unfold stepA
  match hres : r.result with
  | .error _ => exact hr
  | .ok _ =>
    intro ev hev
    simp only at hev
    rcases List.mem_append.mp hev with h | h
    · exact hr ev h
    · rcases List.mem_cons.mp h with h' | h'
      · rw [h']; exact hm
      · exact hf r.dev ev h'

/-- An event that is not a marker cannot equal a marker. -/
theorem Ev.ne_act_of_not_actB {ev : Ev} (h : ev.isActB = false) (n s : String) :
    ev ≠ Ev.act n s := by
  intro hh
  subst hh
  simp [Ev.isActB] at h

/-- Events emitted by `SetExptime.execute` are plain device events. -/
theorem setExptime_trace_benign (args : Entry) (d : Dev) :
    ∀ ev ∈ (SetExptime.execute args d).trace, ev.isActB = false ∧ ev.isSleepB = false := by
  apply mkExecute_trace_forall <;>
    · intro d' ev hev
      simp only [SetExptime.perform, SetExptime.post_condition] at hev
      repeat' split at hev
      all_goals cases ev <;> simp_all [Ev.isActB, Ev.isSleepB]

/-- Events emitted by `StartExposure.execute` are plain device events. -/
theorem startExposure_trace_benign (args : Entry) (d : Dev) :
    ∀ ev ∈ (StartExposure.execute args d).trace, ev.isActB = false ∧ ev.isSleepB = false := by
  apply mkExecute_trace_forall <;>
    · intro d' ev hev
      simp only [StartExposure.perform, StartExposure.post_condition] at hev
      repeat' split at hev
      all_goals cases ev <;> simp_all [Ev.isActB, Ev.isSleepB]

/-- Events emitted by `WaitForReadout.execute` are plain device events. -/
theorem waitForReadout_trace_benign (args : Entry) (d : Dev) :
    ∀ ev ∈ (WaitForReadout.execute args d).trace, ev.isActB = false ∧ ev.isSleepB = false := by
  apply mkExecute_trace_forall <;>
    · intro d' ev hev
      simp only [WaitForReadout.perform, WaitForReadout.post_condition] at hev
      repeat' split at hev
      all_goals cases ev <;> simp_all [Ev.isActB, Ev.isSleepB]

/-- Events emitted by `WaitForReady.execute` are plain device events. -/
theorem waitForReady_trace_benign (args : Entry) (d : Dev) :
    ∀ ev ∈ (WaitForReady.execute args d).trace, ev.isActB = false ∧ ev.isSleepB = false := by
  apply mkExecute_trace_forall <;>
    · intro d' ev hev
      simp only [WaitForReady.perform, WaitForReady.post_condition] at hev
      repeat' split at hev
      all_goals cases ev <;> simp_all [Ev.isActB, Ev.isSleepB]

/-- Events emitted by `PowerOnCalSource.execute` are plain device
events. -/
theorem powerOnCalSource_trace_benign (args : Entry) (d : Dev) :
    ∀ ev ∈ (PowerOnCalSource.execute args d).trace, ev.isActB = false ∧ ev.isSleepB = false := by
  apply mkExecute_trace_forall <;>
    · intro d' ev hev
      simp only [PowerOnCalSource.perform, PowerOnCalSource.post_condition] at hev
      repeat' split at hev
      all_goals cases ev <;> simp_all [Ev.isActB, Ev.isSleepB]

/-- Events emitted by `PowerOffCalSource.execute` are plain device
events. -/
theorem powerOffCalSource_trace_benign (args : Entry) (d : Dev) :
    ∀ ev ∈ (PowerOffCalSource.execute args d).trace, ev.isActB = false ∧ ev.isSleepB = false := by
  apply mkExecute_trace_forall <;>
    · intro d' ev hev
      simp only [PowerOffCalSource.perform, PowerOffCalSource.post_condition, Entry.attr_lamp] at hev
      repeat' split at hev
      all_goals cases ev <;> simp_all [Ev.isActB, Ev.isSleepB]

/-- Events emitted by `SetND2.execute` are plain device events. -/
theorem setND2_trace_benign (args : Entry) (d : Dev) :
    ∀ ev ∈ (SetND2.execute args d).trace, ev.isActB = false ∧ ev.isSleepB = false := by
  apply mkExecute_trace_forall <;>
    · intro d' ev hev
      simp only [SetND2.perform, SetND2.post_condition] at hev
      repeat' split at hev
      all_goals cases ev <;> simp_all [Ev.isActB, Ev.isSleepB]

/-- Events emitted by `SetTriggeredDetectors.execute` are plain device
events. -/
theorem setTriggeredDetectors_trace_benign (args : Entry) (d : Dev) :
    ∀ ev ∈ (SetTriggeredDetectors.execute args d).trace,
      ev.isActB = false ∧ ev.isSleepB = false := by
  apply mkExecute_trace_forall <;>
    · intro d' ev hev
      simp only [SetTriggeredDetectors.perform, SetTriggeredDetectors.post_condition] at hev
      repeat' split at hev
      all_goals cases ev <;> simp_all [Ev.isActB, Ev.isSleepB]

/-- Every event of `SetCalSource.execute` is a device event on
`kpfmot.OCTAGON`. -/
theorem setCalSource_trace_kw (args : Entry) (d : Dev) :
    ∀ ev ∈ (SetCalSource.execute args d).trace,
      ev.isActB = false ∧ ev.isSleepB = false ∧ ev.kwOf = "kpfmot.OCTAGON" := by
  apply mkExecute_trace_forall <;>
    · intro d' ev hev
      simp only [SetCalSource.perform, SetCalSource.post_condition] at hev
      repeat' split at hev
      all_goals cases ev <;> simp_all [Ev.isActB, Ev.isSleepB, Ev.kwOf]

/-- Every event of `SetSourceSelectShutters.execute` is a device event
on `kpfexpose.SRC_SHUTTERS`. -/
theorem setSourceSelectShutters_trace_kw (args : Entry) (d : Dev) :
    ∀ ev ∈ (SetSourceSelectShutters.execute args d).trace,
      ev.isActB = false ∧ ev.isSleepB = false ∧ ev.kwOf = "kpfexpose.SRC_SHUTTERS" := by
  apply mkExecute_trace_forall <;>
    · intro d' ev hev
      simp only [SetSourceSelectShutters.perform, SetSourceSelectShutters.post_condition] at hev
      repeat' split at hev
      all_goals cases ev <;> simp_all [Ev.isActB, Ev.isSleepB, Ev.kwOf]

/-- Every event of `SetTimedShutters.execute` is a device event on
`kpfexpose.TIMED_SHUTTERS`. -/
theorem setTimedShutters_trace_kw (args : Entry) (d : Dev) :
    ∀ ev ∈ (SetTimedShutters.execute args d).trace,
      ev.isActB = false ∧ ev.isSleepB = false ∧ ev.kwOf = "kpfexpose.TIMED_SHUTTERS" := by
  apply mkExecute_trace_forall <;>
    · intro d' ev hev
      simp only [SetTimedShutters.perform, SetTimedShutters.post_condition] at hev
      repeat' split at hev
      all_goals cases ev <;> simp_all [Ev.isActB, Ev.isSleepB, Ev.kwOf]

/-- Every event of `SetND1.execute` is a device event on
`kpfmot.ND1POS`. -/
theorem setND1_trace_kw (args : Entry) (d : Dev) :
    ∀ ev ∈ (SetND1.execute args d).trace,
      ev.isActB = false ∧ ev.isSleepB = false ∧ ev.kwOf = "kpfmot.ND1POS" := by
  apply mkExecute_trace_forall <;>
    · intro d' ev hev
      simp only [SetND1.perform, SetND1.post_condition] at hev
      repeat' split at hev
      all_goals cases ev <;> simp_all [Ev.isActB, Ev.isSleepB, Ev.kwOf]

/-! ### Power-on phase lemmas -/

/-- After `unlock / On / lock` the outlet reads `On` (the outlet keyword
is not faulty; the `_LOCK` keyword is distinct from it). -/
theorem readS_after_on_writes (d : Dev) (p : String) (h : p ∉ d.faulty) :
    (((d.writeS (p ++ "_LOCK") "Unlocked").writeS p "On").writeS (p ++ "_LOCK") "Locked").readS p
      = "On" := by
  rw [Dev.readS_writeS_ne _ _ _ _ (String.ne_append_LOCK p)]
  rw [Dev.readS_writeS_self]
  rw [Dev.faulty_writeS]
  exact h

/-- String writes never change the faulty set (three in a row). -/
theorem faulty_writeS3 (d : Dev) (a b c x y z : String) :
    (((d.writeS a x).writeS b y).writeS c z).faulty = d.faulty := by
  rw [Dev.faulty_writeS, Dev.faulty_writeS, Dev.faulty_writeS]

/-- On a fault-free device, `PowerOnCalSource.execute` always succeeds
(either the outlet already reads `On`, or the `unlock/On/lock` writes are
honoured and the read-back verifies), and it leaves the device
fault-free. -/
theorem powerOn_exec_props (l : String) (d : Dev) (h : d.faulty = []) :
    (PowerOnCalSource.execute (lampEntry l) d).result = .ok () ∧
    (PowerOnCalSource.execute (lampEntry l) d).dev.faulty = [] := by
  unfold PowerOnCalSource.execute mkExecute seqR passPre PowerOnCalSource.perform
    PowerOnCalSource.post_condition
  have hport : portOf (lampEntry l) = powerPorts l := rfl
  rcases hp : powerPorts l with _ | port
  · simp [hport, hp, h]
  · simp only [hport, hp]
    by_cases hOn : d.readS ("kpfpower." ++ port) = "On"
    · simp [hOn, h]
    · have hnf : ("kpfpower." ++ port) ∉ d.faulty := by
        rw [h]; exact List.not_mem_nil _
      have hrb := readS_after_on_writes d ("kpfpower." ++ port) hnf
      have hf3 := faulty_writeS3 d ("kpfpower." ++ port ++ "_LOCK") ("kpfpower." ++ port)
        ("kpfpower." ++ port ++ "_LOCK") "Unlocked" "On" "Locked"
      simp only [if_neg hOn]
      simp [hrb, hf3, h]

/-- The full power-on phase on a fault-free device: it succeeds, keeps
the device fault-free, contains exactly one `PowerOnCalSource` marker per
occurrence of each lamp in the list, and contains no sleeps and no
markers other than `PowerOnCalSource` ones. -/
theorem powerOnPhase_props (lamps : List String) (d : Dev) (h : d.faulty = []) :
    (powerOnPhase lamps d).result = .ok () ∧
    (powerOnPhase lamps d).dev.faulty = [] ∧
    (∀ l, (powerOnPhase lamps d).trace.countP
        (fun ev => ev == Ev.act "PowerOnCalSource" l) = lamps.count l) ∧
    (∀ ev ∈ (powerOnPhase lamps d).trace,
        ev.isSleepB = false ∧ (ev.isActB = true → ∃ l', ev = Ev.act "PowerOnCalSource" l')) := by
  induction lamps generalizing d with
  | nil =>
    refine ⟨rfl, h, ?_, ?_⟩
    · intro l; rfl
    · intro ev hev; exact absurd hev (List.not_mem_nil _)
  | cons l0 rest ih =>
    obtain ⟨hres, hfa⟩ := powerOn_exec_props l0 d h
    obtain ⟨ih1, ih2, ih3, ih4⟩ := ih (PowerOnCalSource.execute (lampEntry l0) d).dev hfa
    have hbenign := powerOnCalSource_trace_benign (lampEntry l0) d
    unfold powerOnPhase
    simp only [hres]
    refine ⟨ih1, ih2, ?_, ?_⟩
    · intro l
      simp only [List.countP_cons, List.countP_append]
      have hz : (PowerOnCalSource.execute (lampEntry l0) d).trace.countP
          (fun ev => ev == Ev.act "PowerOnCalSource" l) = 0 := by
        rw [List.countP_eq_zero]
        intro ev hev
        have hb := (hbenign ev hev).1
        simp only [beq_eq_false_iff_ne, ne_eq]
        exact fun hh => absurd (beq_iff_eq.mpr hh)
          (by simp [beq_eq_false_iff_ne.mpr (Ev.ne_act_of_not_actB hb "PowerOnCalSource" l)])
      rw [List.count_cons, hz, ih3 l]
      have : ((Ev.act "PowerOnCalSource" l0 : Ev) == Ev.act "PowerOnCalSource" l)
          = (l0 == l) := by
        by_cases hl : l0 = l
        · subst hl; simp
        · rw [beq_eq_false_iff_ne.mpr (by simp [hl]), (beq_eq_false_iff_ne.mpr hl)]
      simp [this]
      omega
    · intro ev hev
      rcases List.mem_cons.mp hev with rfl | hev'
      · exact ⟨rfl, fun _ => ⟨l0, rfl⟩⟩
      · rcases List.mem_append.mp hev' with h1 | h2
        · have hb := hbenign ev h1
          exact ⟨hb.2, fun hact => absurd hact (by simp [hb.1])⟩
        · exact ih4 ev h2

/-! ### The per-entry chain and the loops contain no power-on markers
and no sleeps -/

theorem notPowerOnOrSleep_of_benign {ev : Ev}
    (h : ev.isActB = false ∧ ev.isSleepB = false) : notPowerOnOrSleep ev :=
  ⟨h.2, fun l => Ev.ne_act_of_not_actB h.1 "PowerOnCalSource" l⟩

theorem notPowerOnOrSleep_marker {n : String} (s : String) (hn : n ≠ "PowerOnCalSource") :
    notPowerOnOrSleep (Ev.act n s) := by
  refine ⟨rfl, fun l hh => ?_⟩
  injection hh with h1 h2
  exact hn h1

theorem chain4_nps (e : Entry) (d : Dev) :
    ∀ ev ∈ (chain4 e d).trace, notPowerOnOrSleep ev := by
  unfold chain4 chain3
  apply stepA_trace_forall (notPowerOnOrSleep_marker _ (by decide))
    (fun d' ev hev => notPowerOnOrSleep_of_benign
      (let h := setND1_trace_kw e d' ev hev; ⟨h.1, h.2.1⟩))
  apply stepA_trace_forall (notPowerOnOrSleep_marker _ (by decide))
    (fun d' ev hev => notPowerOnOrSleep_of_benign
      (let h := setTimedShutters_trace_kw e d' ev hev; ⟨h.1, h.2.1⟩))
  apply stepA_trace_forall (notPowerOnOrSleep_marker _ (by decide))
    (fun d' ev hev => notPowerOnOrSleep_of_benign
      (let h := setSourceSelectShutters_trace_kw e d' ev hev; ⟨h.1, h.2.1⟩))
  apply stepA_trace_forall (notPowerOnOrSleep_marker _ (by decide))
    (fun d' ev hev => notPowerOnOrSleep_of_benign
      (let h := setCalSource_trace_kw e d' ev hev; ⟨h.1, h.2.1⟩))
  intro ev hev
  exact absurd hev (List.not_mem_nil _)

theorem expLoop_nps (noexp : Bool) (e : Entry) (k : Nat) (d : Dev) :
    ∀ ev ∈ (expLoop noexp e k d).trace, notPowerOnOrSleep ev := by
  induction k generalizing d with
  | zero => intro ev hev; exact absurd hev (List.not_mem_nil _)
  | succ k ih =>
    unfold expLoop
    apply seqR_trace_forall _ (fun d' => ih d')
    have h1 : ∀ ev ∈ (stepA "WaitForReady" WaitForReady.execute e
        (⟨[], d, .ok ()⟩ : Res)).trace, notPowerOnOrSleep ev := by
      apply stepA_trace_forall (notPowerOnOrSleep_marker _ (by decide))
        (fun d' ev hev => notPowerOnOrSleep_of_benign (waitForReady_trace_benign e d' ev hev))
      intro ev hev; exact absurd hev (List.not_mem_nil _)
    by_cases hne : noexp
    · simp only [hne, if_true]
      exact h1
    · simp only [hne, if_false]
      apply stepA_trace_forall (notPowerOnOrSleep_marker _ (by decide))
        (fun d' ev hev => notPowerOnOrSleep_of_benign (waitForReadout_trace_benign e d' ev hev))
      apply stepA_trace_forall (notPowerOnOrSleep_marker _ (by decide))
        (fun d' ev hev => notPowerOnOrSleep_of_benign (startExposure_trace_benign e d' ev hev))
      exact h1

theorem runOne_nps (noexp : Bool) (e : Entry) (d : Dev) :
    ∀ ev ∈ (runOne noexp e d).trace, notPowerOnOrSleep ev := by
  unfold runOne
  apply seqR_trace_forall _ (fun d' => expLoop_nps noexp e _ d')
  apply stepA_trace_forall (notPowerOnOrSleep_marker _ (by decide))
    (fun d' ev hev => notPowerOnOrSleep_of_benign (setTriggeredDetectors_trace_benign e d' ev hev))
  apply stepA_trace_forall (notPowerOnOrSleep_marker _ (by decide))
    (fun d' ev hev => notPowerOnOrSleep_of_benign (waitForReady_trace_benign e d' ev hev))
  apply stepA_trace_forall (notPowerOnOrSleep_marker _ (by decide))
    (fun d' ev hev => notPowerOnOrSleep_of_benign (setExptime_trace_benign e d' ev hev))
  apply stepA_trace_forall (notPowerOnOrSleep_marker _ (by decide))
    (fun d' ev hev => notPowerOnOrSleep_of_benign (setND2_trace_benign e d' ev hev))
  exact chain4_nps e d

theorem runEntries_nps (noexp : Bool) (es : List Entry) (d : Dev) :
    ∀ ev ∈ (runEntries noexp es d).trace, notPowerOnOrSleep ev := by
  induction es generalizing d with
  | nil => intro ev hev; exact absurd hev (List.not_mem_nil _)
  | cons e rest ih =>
    unfold runEntries
    exact seqR_trace_forall (runOne_nps noexp e d) (fun d' => ih d')

theorem runRepeats_nps (noexp : Bool) (es : List Entry) (k : Nat) (d : Dev) :
    ∀ ev ∈ (runRepeats noexp es k d).trace, notPowerOnOrSleep ev := by
  induction k generalizing d with
  | zero => intro ev hev; exact absurd hev (List.not_mem_nil _)
  | succ k ih =>
    unfold runRepeats
    exact seqR_trace_forall (runEntries_nps noexp es d) (fun d' => ih d')

theorem powerOffPhase_nps (lamps : List String) (d : Dev) :
    ∀ ev ∈ (powerOffPhase lamps d).trace, notPowerOnOrSleep ev := by
  induction lamps generalizing d with
  | nil => intro ev hev; exact absurd hev (List.not_mem_nil _)
  | cons l rest ih =>
    unfold powerOffPhase
    have hb : ∀ ev ∈ (PowerOffCalSource.execute (lampEntry l) d).trace, notPowerOnOrSleep ev :=
      fun ev hev => notPowerOnOrSleep_of_benign (powerOffCalSource_trace_benign (lampEntry l) d ev hev)
    cases hres : (PowerOffCalSource.execute (lampEntry l) d).result with
    | error er =>
      simp only [hres]
      intro ev hev
      rcases List.mem_cons.mp hev with rfl | hev'
      · exact notPowerOnOrSleep_marker _ (by decide)
      · exact hb ev hev'
    | ok u =>
      simp only [hres]
      intro ev hev
      rcases List.mem_cons.mp hev with rfl | hev'
      · exact notPowerOnOrSleep_marker _ (by decide)
      · rcases List.mem_append.mp hev' with h1 | h2
        · exact hb ev h1
        · exact ih _ ev h2

/-- Assembly step shared by the branches of the warm-up claim: a trace
of the form `preTrace ++ [sleep] ++ restTrace` where `preTrace` holds the
power-on markers (one per occurrence in the dedup list) and `restTrace`
is free of power-on markers and sleeps. -/
theorem c8_assemble (preTrace restTrace fullTrace : List Ev) (lampNames : List String)
    (w : Int)
    (hfull : fullTrace = (preTrace ++ [Ev.sleepE w]) ++ restTrace)
    (hcount : ∀ l, preTrace.countP (fun ev => ev == Ev.act "PowerOnCalSource" l)
        = lampNames.dedup.count l)
    (hshape : ∀ ev ∈ preTrace,
        ev.isSleepB = false ∧ (ev.isActB = true → ∃ l', ev = Ev.act "PowerOnCalSource" l'))
    (hrest : ∀ ev ∈ restTrace, notPowerOnOrSleep ev) :
    ∃ pre rest, fullTrace = pre ++ rest ∧
      (∀ l, pre.countP (fun ev => ev == Ev.act "PowerOnCalSource" l)
          = if l ∈ lampNames then 1 else 0) ∧
      pre.filter Ev.isSleepB = [Ev.sleepE w] ∧
      (∀ ev ∈ pre, ev.isActB = true → ∃ l', ev = Ev.act "PowerOnCalSource" l') ∧
      (∀ ev ∈ rest, (∀ l, ev ≠ Ev.act "PowerOnCalSource" l) ∧ ev.isSleepB = false) ∧
      (∀ l, fullTrace.countP (fun ev => ev == Ev.act "PowerOnCalSource" l)
          = if l ∈ lampNames then 1 else 0) ∧
      fullTrace.filter Ev.isSleepB = [Ev.sleepE w] := by
  have hprecount : ∀ l, (preTrace ++ [Ev.sleepE w]).countP
      (fun ev => ev == Ev.act "PowerOnCalSource" l) = if l ∈ lampNames then 1 else 0 := by
    intro l
    rw [List.countP_append, hcount l, List.count_dedup]
    simp
  have hrestcount : ∀ l, restTrace.countP (fun ev => ev == Ev.act "PowerOnCalSource" l) = 0 := by
    intro l
    rw [List.countP_eq_zero]
    intro ev hev
    simp only [beq_iff_eq]
    exact fun hh => (hrest ev hev).2 l hh
  have hpresleep : (preTrace ++ [Ev.sleepE w]).filter Ev.isSleepB = [Ev.sleepE w] := by
    rw [List.filter_append]
    have h1 : preTrace.filter Ev.isSleepB = [] :=
      List.filter_eq_nil_iff.mpr (fun ev hev => by simp [(hshape ev hev).1])
    rw [h1]
    rfl
  refine ⟨preTrace ++ [Ev.sleepE w], restTrace, by rw [hfull], hprecount, hpresleep, ?_, ?_, ?_, ?_⟩
  · intro ev hev
    rcases List.mem_append.mp hev with h1 | h2
    · exact (hshape ev h1).2
    · rcases List.mem_singleton.mp h2 with rfl
      intro hact
      exact absurd hact (by simp [Ev.isActB])
  · intro ev hev
    exact ⟨(hrest ev hev).2, (hrest ev hev).1⟩
  · intro l
    rw [hfull, List.countP_append, hprecount l, hrestcount l]
    omega
  · rw [hfull, List.filter_append, hpresleep]
    have h2 : restTrace.filter Ev.isSleepB = [] :=
      List.filter_eq_nil_iff.mpr (fun ev hev => by simp [(hrest ev hev).1])
    rw [h2]
    rfl

/-- C8: before any configuration step, the sequencer powers on each
distinct lamp referenced across all loaded sequence entries exactly once
(duplicates cause no second power-on action) and then sleeps exactly
once, for the maximum `WarmUp` value across all entries.  Formally: on a
fault-free device, the trace of `RunCalSequence.perform` splits as
`pre ++ rest` where `pre` contains exactly one `PowerOnCalSource` marker
for each distinct referenced lamp, exactly one sleep — of duration
`max(WarmUp)` — and no other action markers, while `rest` contains no
power-on marker and no sleep at all; hence over the whole trace each
distinct lamp is powered on exactly once and the single sleep has the
maximum warm-up duration. -/
theorem runcal_powers_once_sleeps_max (args : Args) (load : String → Entry) (d : Dev)
    (lampNames : List String) (warmUps : List Int) (w : Int)
    (hoct : (args.files.map load).mapM Entry.itemOctagonSource = .ok lampNames)
    (hwarm : (args.files.map load).mapM Entry.itemWarmUp = .ok warmUps)
    (hmax : warmUps.max? = some w)
    (hfaulty : d.faulty = []) :
    ∃ pre rest, (RunCalSequence.perform args load d).trace = pre ++ rest ∧
      (∀ l, pre.countP (fun ev => ev == Ev.act "PowerOnCalSource" l)
          = if l ∈ lampNames then 1 else 0) ∧
      pre.filter Ev.isSleepB = [Ev.sleepE w] ∧
      (∀ ev ∈ pre, ev.isActB = true → ∃ l', ev = Ev.act "PowerOnCalSource" l') ∧
      (∀ ev ∈ rest, (∀ l, ev ≠ Ev.act "PowerOnCalSource" l) ∧ ev.isSleepB = false) ∧
      (∀ l, (RunCalSequence.perform args load d).trace.countP
          (fun ev => ev == Ev.act "PowerOnCalSource" l) = if l ∈ lampNames then 1 else 0) ∧
      (RunCalSequence.perform args load d).trace.filter Ev.isSleepB = [Ev.sleepE w] := by
  obtain ⟨hres, hfa, hcount, hshape⟩ := powerOnPhase_props lampNames.dedup d hfaulty
  unfold RunCalSequence.perform
  simp only [hoct, hwarm, hmax, hres]
  set rl := runRepeats args.noexp (List.map load args.files) args.count
    (powerOnPhase lampNames.dedup d).dev with hrlDef
  have hrl_nps : ∀ ev ∈ rl.trace, notPowerOnOrSleep ev := by
    rw [hrlDef]
    exact runRepeats_nps args.noexp (List.map load args.files) args.count
      (powerOnPhase lampNames.dedup d).dev
  cases hrl : rl.result with
  | error er =>
    simp only [hrl]
    exact c8_assemble (powerOnPhase lampNames.dedup d).trace rl.trace _ lampNames w
      (by simp) hcount hshape hrl_nps
  | ok u =>
    simp only [hrl]
    set roff := (if args.lampsoff = true then powerOffPhase lampNames.dedup rl.dev
      else ⟨[], rl.dev, .ok ()⟩ : Res) with hroffDef
    have hroff_nps : ∀ ev ∈ roff.trace, notPowerOnOrSleep ev := by
      rw [hroffDef]
      by_cases hlo : args.lampsoff
      · simp only [hlo, if_true]
        exact powerOffPhase_nps _ _
      · simp only [hlo, if_false]
        intro ev hev
        exact absurd hev (List.not_mem_nil _)
    have hrest2 : ∀ ev ∈ rl.trace ++ roff.trace, notPowerOnOrSleep ev := by
      intro ev hev
      rcases List.mem_append.mp hev with h1 | h2
      · exact hrl_nps ev h1
      · exact hroff_nps ev h2
    cases hro : roff.result with
    | error er2 =>
      simp only [hro]
      exact c8_assemble (powerOnPhase lampNames.dedup d).trace (rl.trace ++ roff.trace) _
        lampNames w (by simp) hcount hshape hrest2
    | ok u2 =>
      simp only [hro]
      cases hc : args.count with
      | zero =>
        try simp only [hc]
        exact c8_assemble (powerOnPhase lampNames.dedup d).trace (rl.trace ++ roff.trace) _
          lampNames w (by simp) hcount hshape hrest2
      | succ k =>
        try simp only [hc]
        cases hlast : (args.files.map load).getLast? with
        | none =>
          try simp only [hlast]
          exact c8_assemble (powerOnPhase lampNames.dedup d).trace (rl.trace ++ roff.trace) _
            lampNames w (by simp) hcount hshape hrest2
        | some eLast =>
          try simp only [hlast]
          refine c8_assemble (powerOnPhase lampNames.dedup d).trace
            (rl.trace ++ roff.trace ++
              (stepA "WaitForReady" WaitForReady.execute eLast ⟨[], roff.dev, .ok ()⟩).trace) _
            lampNames w (by simp) hcount hshape ?_
          intro ev hev
          rcases List.mem_append.mp hev with h12 | h3
          · exact hrest2 ev h12
          · refine stepA_trace_forall (notPowerOnOrSleep_marker _ (by decide))
              (fun d' ev' hev' => notPowerOnOrSleep_of_benign
                (waitForReady_trace_benign eLast d' ev' hev')) ?_ ev h3
            intro ev' hev'
            exact absurd hev' (List.not_mem_nil _)

/-- A failed step short-circuits `stepA` (the Python exception skips the
rest of the chain). -/
theorem stepA_error {r : Res} {er : Err} (name : String) (f : Entry → Dev → Res) (e : Entry)
    (h : r.result = .error er) : stepA name f e r = r := by
  unfold stepA
  rw [h]

/-- A failed first phase short-circuits `seqR`. -/
theorem seqR_error {r : Res} {er : Err} (f : Dev → Res) (h : r.result = .error er) :
    seqR r f = r := by
  unfold seqR
  rw [h]

/-- The trace of the chain through `SetND1` contains no device event on
any of the keywords the later steps would touch. -/
theorem chain4raw_kw (e : Entry) (d : Dev) :
    ∀ ev ∈ (stepA "SetND1" SetND1.execute e
        (stepA "SetTimedShutters" SetTimedShutters.execute e
          (stepA "SetSourceSelectShutters" SetSourceSelectShutters.execute e
            (stepA "SetCalSource" SetCalSource.execute e
              (⟨[], d, .ok ()⟩ : Res))))).trace,
      kwLaterFree ev := by
  have hmk : ∀ n : String, kwLaterFree (Ev.act n "") := by
    intro n
    refine ⟨?_, ?_, ?_, ?_⟩ <;> simp [Ev.kwOf]
  apply stepA_trace_forall (hmk _)
    (fun d' ev hev => by
      obtain ⟨-, -, hkw⟩ := setND1_trace_kw e d' ev hev
      unfold kwLaterFree
      rw [hkw]
      refine ⟨?_, ?_, ?_, ?_⟩ <;> decide)
  apply stepA_trace_forall (hmk _)
    (fun d' ev hev => by
      obtain ⟨-, -, hkw⟩ := setTimedShutters_trace_kw e d' ev hev
      unfold kwLaterFree
      rw [hkw]
      refine ⟨?_, ?_, ?_, ?_⟩ <;> decide)
  apply stepA_trace_forall (hmk _)
    (fun d' ev hev => by
      obtain ⟨-, -, hkw⟩ := setSourceSelectShutters_trace_kw e d' ev hev
      unfold kwLaterFree
      rw [hkw]
      refine ⟨?_, ?_, ?_, ?_⟩ <;> decide)
  apply stepA_trace_forall (hmk _)
    (fun d' ev hev => by
      obtain ⟨-, -, hkw⟩ := setCalSource_trace_kw e d' ev hev
      unfold kwLaterFree
      rw [hkw]
      refine ⟨?_, ?_, ?_, ?_⟩ <;> decide)
  intro ev hev
  exact absurd hev (List.not_mem_nil _)

/-- C9: if the `SetND1` step raises after the first three configuration
steps succeeded, the whole per-entry chain stops right there: the chain's
outcome is exactly the outcome accumulated through `SetND1`, its trace
contains no device interaction on `kpfmot.ND2POS`, `kpfexpose.EXPOSURE`,
`kpfexpose.EXPOSE` or `kpfexpose.TRIG_TARG` (the keywords of `SetND2` and
every later step), and the error propagates unchanged through the
entry loop and the repeat loop (no retry). -/
theorem setnd1_mismatch_aborts (noexp : Bool) (e : Entry) (d : Dev) (err : Err)
    (rest : List Entry) (k : Nat)
    (h3 : (chain3 e d).result = .ok ())
    (h4 : (SetND1.execute e (chain3 e d).dev).result = .error err) :
    runOne noexp e d = ⟨(chain4 e d).trace, (chain4 e d).dev, .error err⟩ ∧
    (∀ ev ∈ (chain4 e d).trace,
        ev.kwOf ≠ "kpfmot.ND2POS" ∧ ev.kwOf ≠ "kpfexpose.EXPOSURE" ∧
        ev.kwOf ≠ "kpfexpose.EXPOSE" ∧ ev.kwOf ≠ "kpfexpose.TRIG_TARG") ∧
    runEntries noexp (e :: rest) d = ⟨(chain4 e d).trace, (chain4 e d).dev, .error err⟩ ∧
    runRepeats noexp (e :: rest) (k + 1) d = ⟨(chain4 e d).trace, (chain4 e d).dev, .error err⟩ := by
  have hchain4 : (chain4 e d).result = .error err := by
    unfold chain4 stepA
    rw [h3]
    exact h4
  have heta : (⟨(chain4 e d).trace, (chain4 e d).dev, .error err⟩ : Res) = chain4 e d := by
    rw [← hchain4]
  have hrunOne : runOne noexp e d = chain4 e d := by
    unfold runOne
    show seqR (stepA "SetTriggeredDetectors" SetTriggeredDetectors.execute e
        (stepA "WaitForReady" WaitForReady.execute e
          (stepA "SetExptime" SetExptime.execute e
            (stepA "SetND2" SetND2.execute e (chain4 e d)))))
        (expLoop noexp e (e.nExp.getD 1)) = chain4 e d
    rw [stepA_error _ _ _ hchain4, stepA_error _ _ _ hchain4, stepA_error _ _ _ hchain4,
      stepA_error _ _ _ hchain4, seqR_error _ hchain4]
  have hentries : runEntries noexp (e :: rest) d = chain4 e d := by
    unfold runEntries
    rw [hrunOne, seqR_error _ hchain4]
  have hrepeats : runRepeats noexp (e :: rest) (k + 1) d = chain4 e d := by
    unfold runRepeats
    rw [hentries, seqR_error _ hchain4]
  refine ⟨by rw [hrunOne, heta], ?_, by rw [hentries, heta], by rw [hrepeats, heta]⟩
  unfold chain4 chain3
  exact fun ev hev => chain4raw_kw e d ev hev

/-- Witness for the `SetND1` abort theorem at a concrete stuck-wheel
device: the repeat loop with three repeats pending stops with the ND1
mismatch error, and the produced trace touches none of the later-step
keywords. -/
theorem setnd1_mismatch_aborts_witness :
    (runRepeats false [c9entry] 3 c9dev).result =
      .error (.kpf "Final ND1 position mismatch: OD 4 != OD 0.1") ∧
    (∀ ev ∈ (chain4 c9entry c9dev).trace,
        ev.kwOf ≠ "kpfmot.ND2POS" ∧ ev.kwOf ≠ "kpfexpose.EXPOSURE" ∧
        ev.kwOf ≠ "kpfexpose.EXPOSE" ∧ ev.kwOf ≠ "kpfexpose.TRIG_TARG") := by
  obtain ⟨h1, h2, h3, h4⟩ := setnd1_mismatch_aborts false c9entry c9dev
    (.kpf "Final ND1 position mismatch: OD 4 != OD 0.1") [] 2 (by decide) (by decide)
  exact ⟨by rw [h4], h2⟩

/-! ### The timed wait: lemmas and the `WaitForReadout` timeout claim -/

/-- If the signal never equals the target within the timeout window, the
wait returns `false` after the full timeout. -/
theorem waitForT_no_hit (d : TDev) (target : Nat) (timeout : Int)
    (h : ∀ t ∈ d.waitTimes, ¬(d.now ≤ t ∧ t ≤ d.now + timeout ∧ d.stateAt t = target)) :
    d.waitForT target timeout = (false, d.now + timeout) := by
  unfold TDev.waitForT
  have hnil : d.hits target timeout = [] := by
    unfold TDev.hits
    rw [List.filter_eq_nil_iff]
    intro t ht
    simp only [decide_eq_true_eq]
    exact h t ht
  rw [hnil]
  rfl

/-- If the signal equals the target at some candidate moment within the
window, the wait returns `true` at a moment where the signal (still)
equals the target. -/
theorem waitForT_hit (d : TDev) (target : Nat) (timeout t : Int)
    (ht : t ∈ d.waitTimes) (h1 : d.now ≤ t) (h2 : t ≤ d.now + timeout)
    (h3 : d.stateAt t = target) :
    ∃ t', d.waitForT target timeout = (true, t') ∧ d.stateAt t' = target := by
  have hmem : t ∈ d.hits target timeout := by
    unfold TDev.hits
    rw [List.mem_filter]
    refine ⟨ht, ?_⟩
    simp [h1, h2, h3]
  unfold TDev.waitForT
  cases hmin : (d.hits target timeout).min? with
  | none =>
    rw [List.min?_eq_none_iff] at hmin
    rw [hmin] at hmem
    exact absurd hmem (List.not_mem_nil _)
  | some t' =>
    have ht' : t' ∈ d.hits target timeout := List.min?_mem (fun a b => min_choice a b) hmin
    have hpred := (List.mem_filter.mp ht').2
    simp only [decide_eq_true_eq] at hpred
    exact ⟨t', rfl, hpred.2.2⟩

/-- The `EXPOSE` signal does not depend on the clock field. -/
theorem stateAt_set_now (d : TDev) (x t : Int) :
    TDev.stateAt { d with now := x } t = d.stateAt t := rfl

/-- C5 (amended): started when the current exposure time is `T`, if the
device never reports `Readout` up to `T + 10` seconds after the start,
`WaitForReadout.execute` fails — but with the post-condition's `KPFError`
state mismatch (the boolean timeout result of the underlying `waitFor`
is discarded), not with a `TimeoutError`; and it succeeds as soon as the
device reports `Readout` at any moment strictly before the `T + 10`
deadline. -/
theorem waitforreadout_timeout_behavior (a : Entry) (d : TDev) (h0 : 0 ≤ d.exposure) :
    ((∀ t, d.now ≤ t → t ≤ d.now + (d.exposure + 1000) → d.stateAt t ≠ 4) →
      (WaitForReadoutT.execute a d).result =
        .error (.kpf ("Final detector state mismatch: "
          ++ exposeName (d.stateAt (d.now + (d.exposure + 1000))) ++ " != Readout"))) ∧
    ((∃ t ∈ d.waitTimes, d.now ≤ t ∧ t < d.now + (d.exposure + 1000) ∧ d.stateAt t = 4) →
      (WaitForReadoutT.execute a d).result = .ok ()) := by
  constructor
  · intro h
    have hw := waitForT_no_hit d 4 (d.exposure + 1000)
      (fun t _ hc => h t hc.1 hc.2.1 hc.2.2)
    have hne4 : d.stateAt (d.now + (d.exposure + 1000)) ≠ 4 :=
      h _ (by omega) (by omega)
    have hname : exposeName (d.stateAt (d.now + (d.exposure + 1000))) ≠ "Readout" :=
      fun hr => hne4 ((exposeName_eq_readout_iff _).mp hr)
    unfold WaitForReadoutT.execute seqT WaitForReadoutT.perform WaitForReadoutT.post_condition
    simp only [hw, stateAt_set_now]
    simp [hname]
  · rintro ⟨t, ht, h1, h2, h3⟩
    obtain ⟨t', hw, hst⟩ := waitForT_hit d 4 (d.exposure + 1000) t ht h1 (le_of_lt h2) h3
    have hname : exposeName (d.stateAt t') = "Readout" := by rw [hst]; rfl
    unfold WaitForReadoutT.execute seqT WaitForReadoutT.perform WaitForReadoutT.post_condition
    simp only [hw, stateAt_set_now]
    simp [hname]

/-- C5 counterexample to the claim as stated: a device (exposure time
2 s) that never reports `Readout` within the window makes
`WaitForReadout.execute` fail with the module's `KPFError` mismatch — not
with Python's `TimeoutError`; the underlying `waitFor` simply returns
`false`, which the code ignores. -/
theorem waitforreadout_no_timeouterror :
    (WaitForReadoutT.execute {} ⟨200, 0, [(5000, 4)], 0⟩).result =
      .error (.kpf "Final detector state mismatch: Ready != Readout") ∧
    (WaitForReadoutT.execute {} ⟨200, 0, [(5000, 4)], 0⟩).result ≠ .error Err.timeout := by
  constructor
  · decide
  · decide

/-- Witness for the amended `WaitForReadout` claim: with exposure time
2 s (deadline 12 s), a device that never leaves `Ready` yields the
`KPFError` mismatch, and a device that first reports `Readout` at
11.99 s — strictly before the deadline — succeeds. -/
theorem waitforreadout_timeout_behavior_witness :
    (WaitForReadoutT.execute {} ⟨200, 0, [], 0⟩).result =
      .error (.kpf "Final detector state mismatch: Ready != Readout") ∧
    (WaitForReadoutT.execute {} ⟨200, 0, [(1199, 4)], 0⟩).result = .ok () := by
  constructor
  · have h := (waitforreadout_timeout_behavior {} ⟨200, 0, [], 0⟩ (by decide)).1
      (fun t _ _ => by simp [TDev.stateAt])
    exact h
  · exact (waitforreadout_timeout_behavior {} ⟨200, 0, [(1199, 4)], 0⟩ (by decide)).2
      ⟨1199, by decide, by decide, by decide, by decide⟩

/-- C10: `WaitForReady.execute`, `WaitForReadout.execute` and
`StartExposure.execute` never read the sequence entry passed to them:
for any two argument dictionaries and the same device state each
performs the identical trace of device reads, waits and writes, leaves
the identical device state and returns or raises identically (shown in
the store model for all three and in the timed model for the wait). -/
theorem exposure_actions_ignore_entry (a1 a2 : Entry) (d : Dev) (dT : TDev) :
    WaitForReady.execute a1 d = WaitForReady.execute a2 d ∧
    WaitForReadout.execute a1 d = WaitForReadout.execute a2 d ∧
    StartExposure.execute a1 d = StartExposure.execute a2 d ∧
    WaitForReadoutT.execute a1 dT = WaitForReadoutT.execute a2 dT :=
  ⟨rfl, rfl, rfl, rfl⟩

/-- On a device whose mapped outlet already reads `On`,
`PowerOnCalSource.execute` performs only reads and succeeds, leaving the
device unchanged. -/
theorem powerOn_exec_already_on (l port : String) (d : Dev)
    (hp : powerPorts l = some port)
    (hOn : d.readS ("kpfpower." ++ port) = "On") :
    PowerOnCalSource.execute (lampEntry l) d =
      ⟨[Ev.readE ("kpfpower." ++ port ++ "_NAME") (d.readS ("kpfpower." ++ port ++ "_NAME")),
        Ev.readE ("kpfpower." ++ port) "On",
        Ev.readE ("kpfpower." ++ port ++ "_NAME") (d.readS ("kpfpower." ++ port ++ "_NAME")),
        Ev.readE ("kpfpower." ++ port) "On"], d, .ok ()⟩ := by
  have hport : portOf (lampEntry l) = some port := by
    simp [portOf, lampEntry, hp]
  unfold PowerOnCalSource.execute mkExecute seqR passPre PowerOnCalSource.perform
    PowerOnCalSource.post_condition
  simp [hport, hOn]

/-- C7: `PowerOnCalSource` is idempotent.  For a lamp with a mapped,
non-faulty outlet: if the outlet already reads `On` the call issues no
write and still verifies; and in every case a first call succeeds and a
second call on the resulting device state is write-free and succeeds. -/
theorem powerOn_idempotent (l port : String) (d : Dev)
    (hp : powerPorts l = some port)
    (hf : ("kpfpower." ++ port) ∉ d.faulty) :
    (d.readS ("kpfpower." ++ port) = "On" →
      (PowerOnCalSource.execute (lampEntry l) d).trace.countP Ev.isWriteB = 0 ∧
      (PowerOnCalSource.execute (lampEntry l) d).result = .ok ()) ∧
    ((PowerOnCalSource.execute (lampEntry l) d).result = .ok () ∧
      (PowerOnCalSource.execute (lampEntry l)
          (PowerOnCalSource.execute (lampEntry l) d).dev).trace.countP Ev.isWriteB = 0 ∧
      (PowerOnCalSource.execute (lampEntry l)
          (PowerOnCalSource.execute (lampEntry l) d).dev).result = .ok ()) := by
  have hport : portOf (lampEntry l) = some port := by
    simp [portOf, lampEntry, hp]
  have hOnCase := powerOn_exec_already_on l port
  constructor
  · intro hOn
    rw [hOnCase d hp hOn]
    refine ⟨?_, rfl⟩
    simp [List.countP_cons, Ev.isWriteB]
  · by_cases hOn : d.readS ("kpfpower." ++ port) = "On"
    · rw [hOnCase d hp hOn]
      rw [hOnCase d hp hOn]
      refine ⟨rfl, ?_, rfl⟩
      simp [List.countP_cons, Ev.isWriteB]
    · have hrb := readS_after_on_writes d ("kpfpower." ++ port) hf
      have hexec : PowerOnCalSource.execute (lampEntry l) d =
          ⟨[Ev.readE ("kpfpower." ++ port ++ "_NAME") (d.readS ("kpfpower." ++ port ++ "_NAME")),
            Ev.readE ("kpfpower." ++ port) (d.readS ("kpfpower." ++ port)),
            Ev.writeE ("kpfpower." ++ port ++ "_LOCK") "Unlocked",
            Ev.writeE ("kpfpower." ++ port) "On",
            Ev.writeE ("kpfpower." ++ port ++ "_LOCK") "Locked",
            Ev.readE ("kpfpower." ++ port ++ "_NAME")
              ((((d.writeS ("kpfpower." ++ port ++ "_LOCK") "Unlocked").writeS
                  ("kpfpower." ++ port) "On").writeS
                  ("kpfpower." ++ port ++ "_LOCK") "Locked").readS
                ("kpfpower." ++ port ++ "_NAME")),
            Ev.readE ("kpfpower." ++ port) "On"],
            ((d.writeS ("kpfpower." ++ port ++ "_LOCK") "Unlocked").writeS
                ("kpfpower." ++ port) "On").writeS
                ("kpfpower." ++ port ++ "_LOCK") "Locked", .ok ()⟩ := by
        unfold PowerOnCalSource.execute mkExecute seqR passPre PowerOnCalSource.perform
          PowerOnCalSource.post_condition
        simp [hport, hOn, hrb]
      rw [hexec]
      have hf2 : ("kpfpower." ++ port) ∉
          (((d.writeS ("kpfpower." ++ port ++ "_LOCK") "Unlocked").writeS
            ("kpfpower." ++ port) "On").writeS
            ("kpfpower." ++ port ++ "_LOCK") "Locked").faulty := by
        rw [faulty_writeS3]
        exact hf
      rw [hOnCase _ hp hrb]
      refine ⟨rfl, ?_, rfl⟩
      simp [List.countP_cons, Ev.isWriteB]

/-- Witness for the idempotence theorem at the `U_gold` lamp on a fresh
fault-free device: the first call succeeds and the immediately repeated
call performs zero writes and succeeds. -/
theorem powerOn_idempotent_witness :
    (PowerOnCalSource.execute (lampEntry "U_gold") ⟨[], 0, 0, []⟩).result = .ok () ∧
    (PowerOnCalSource.execute (lampEntry "U_gold")
        (PowerOnCalSource.execute (lampEntry "U_gold") ⟨[], 0, 0, []⟩).dev).trace.countP
      Ev.isWriteB = 0 ∧
    (PowerOnCalSource.execute (lampEntry "U_gold")
        (PowerOnCalSource.execute (lampEntry "U_gold") ⟨[], 0, 0, []⟩).dev).result = .ok () :=
  (powerOn_idempotent "U_gold" "OUTLET_CAL2_7" ⟨[], 0, 0, []⟩ (by decide) (by decide)).2

/-- C6: for every subset of the boolean flag sets of
`SetTriggeredDetectors`, `SetSourceSelectShutters` and
`SetTimedShutters` — including the empty subset — `perform` writes the
comma-joined representation of exactly that subset (the empty string for
the empty subset), splitting that string on commas and membership-testing
reconstructs exactly the subset's flags, and on a device that faithfully
stores the written string `execute` succeeds. -/
theorem multiselect_roundtrip (d : Dev)
    (h1 : "kpfexpose.TRIG_TARG" ∉ d.faulty)
    (h2 : "kpfexpose.SRC_SHUTTERS" ∉ d.faulty)
    (h3 : "kpfexpose.TIMED_SHUTTERS" ∉ d.faulty) :
    (∀ r g c : Bool,
      (SetTriggeredDetectors.perform
          { TriggerRed := some r, TriggerGreen := some g, TriggerCaHK := some c } d).trace
        = [Ev.writeE "kpfexpose.TRIG_TARG" (joinComma (trigList r g c))] ∧
      ((splitComma (joinComma (trigList r g c))).contains "Red" = r ∧
       (splitComma (joinComma (trigList r g c))).contains "Green" = g ∧
       (splitComma (joinComma (trigList r g c))).contains "Ca_HK" = c) ∧
      (SetTriggeredDetectors.execute
          { TriggerRed := some r, TriggerGreen := some g, TriggerCaHK := some c } d).result
        = .ok ()) ∧
    (∀ b1 b2 b3 b4 b5 : Bool,
      (SetSourceSelectShutters.perform
          { SSS_Science := some b1, SSS_Sky := some b2, SSS_SoCalSci := some b3,
            SSS_SoCalCal := some b4, SSS_CalSciSky := some b5 } d).trace
        = [Ev.writeE "kpfexpose.SRC_SHUTTERS" (joinComma (sssList b1 b2 b3 b4 b5))] ∧
      ((splitComma (joinComma (sssList b1 b2 b3 b4 b5))).contains "SciSelect" = b1 ∧
       (splitComma (joinComma (sssList b1 b2 b3 b4 b5))).contains "SkySelect" = b2 ∧
       (splitComma (joinComma (sssList b1 b2 b3 b4 b5))).contains "SoCalSci" = b3 ∧
       (splitComma (joinComma (sssList b1 b2 b3 b4 b5))).contains "SoCalCal" = b4 ∧
       (splitComma (joinComma (sssList b1 b2 b3 b4 b5))).contains "Cal_SciSky" = b5) ∧
      (SetSourceSelectShutters.execute
          { SSS_Science := some b1, SSS_Sky := some b2, SSS_SoCalSci := some b3,
            SSS_SoCalCal := some b4, SSS_CalSciSky := some b5 } d).result
        = .ok ()) ∧
    (∀ b1 b2 b3 b4 : Bool,
      (SetTimedShutters.perform
          { TS_Scrambler := some b1, TS_SimulCal := some b2, TS_FF_Fiber := some b3,
            TS_CaHK := some b4 } d).trace
        = [Ev.writeE "kpfexpose.TIMED_SHUTTERS" (joinComma (tsList b1 b2 b3 b4))] ∧
      ((splitComma (joinComma (tsList b1 b2 b3 b4))).contains "Scrambler" = b1 ∧
       (splitComma (joinComma (tsList b1 b2 b3 b4))).contains "SimulCal" = b2 ∧
       (splitComma (joinComma (tsList b1 b2 b3 b4))).contains "FF_Fiber" = b3 ∧
       (splitComma (joinComma (tsList b1 b2 b3 b4))).contains "Ca_HK" = b4) ∧
      (SetTimedShutters.execute
          { TS_Scrambler := some b1, TS_SimulCal := some b2, TS_FF_Fiber := some b3,
            TS_CaHK := some b4 } d).result
        = .ok ()) := by
  refine ⟨?_, ?_, ?_⟩
  · intro r g c
    refine ⟨rfl, by cases r <;> cases g <;> cases c <;> decide, ?_⟩
    have hres : (SetTriggeredDetectors.execute
        { TriggerRed := some r, TriggerGreen := some g, TriggerCaHK := some c } d).result
        = (SetTriggeredDetectors.post_condition
            { TriggerRed := some r, TriggerGreen := some g, TriggerCaHK := some c }
            (d.writeS "kpfexpose.TRIG_TARG" (SetTriggeredDetectors.detString
              { TriggerRed := some r, TriggerGreen := some g, TriggerCaHK := some c }))).result :=
      rfl
    rw [hres]
    unfold SetTriggeredDetectors.post_condition
    rw [Dev.readS_writeS_self _ _ _ h1]
    cases r <;> cases g <;> cases c <;> rfl
  · intro b1 b2 b3 b4 b5
    refine ⟨rfl, by cases b1 <;> cases b2 <;> cases b3 <;> cases b4 <;> cases b5 <;> decide, ?_⟩
    have hres : (SetSourceSelectShutters.execute
        { SSS_Science := some b1, SSS_Sky := some b2, SSS_SoCalSci := some b3,
          SSS_SoCalCal := some b4, SSS_CalSciSky := some b5 } d).result
        = (SetSourceSelectShutters.post_condition
            { SSS_Science := some b1, SSS_Sky := some b2, SSS_SoCalSci := some b3,
              SSS_SoCalCal := some b4, SSS_CalSciSky := some b5 }
            (d.writeS "kpfexpose.SRC_SHUTTERS" (SetSourceSelectShutters.shutterString
              { SSS_Science := some b1, SSS_Sky := some b2, SSS_SoCalSci := some b3,
                SSS_SoCalCal := some b4, SSS_CalSciSky := some b5 }))).result :=
      rfl
    rw [hres]
    unfold SetSourceSelectShutters.post_condition
    rw [Dev.readS_writeS_self _ _ _ h2]
    cases b1 <;> cases b2 <;> cases b3 <;> cases b4 <;> cases b5 <;> rfl
  · intro b1 b2 b3 b4
    refine ⟨rfl, by cases b1 <;> cases b2 <;> cases b3 <;> cases b4 <;> decide, ?_⟩
    have hres : (SetTimedShutters.execute
        { TS_Scrambler := some b1, TS_SimulCal := some b2, TS_FF_Fiber := some b3,
          TS_CaHK := some b4 } d).result
        = (SetTimedShutters.post_condition
            { TS_Scrambler := some b1, TS_SimulCal := some b2, TS_FF_Fiber := some b3,
              TS_CaHK := some b4 }
            (d.writeS "kpfexpose.TIMED_SHUTTERS" (SetTimedShutters.shutterString
              { TS_Scrambler := some b1, TS_SimulCal := some b2, TS_FF_Fiber := some b3,
                TS_CaHK := some b4 }))).result :=
      rfl
    rw [hres]
    unfold SetTimedShutters.post_condition
    rw [Dev.readS_writeS_self _ _ _ h3]
    cases b1 <;> cases b2 <;> cases b3 <;> cases b4 <;> rfl

/-- Witness for the round-trip theorem on a fresh fault-free device: a
mixed detector subset, the full shutter subset and the empty timed
subset all verify. -/
theorem multiselect_roundtrip_witness :
    (SetTriggeredDetectors.execute
        { TriggerRed := some true, TriggerGreen := some false, TriggerCaHK := some true }
        ⟨[], 0, 0, []⟩).result = .ok () ∧
    (SetSourceSelectShutters.execute
        { SSS_Science := some true, SSS_Sky := some true, SSS_SoCalSci := some true,
          SSS_SoCalCal := some true, SSS_CalSciSky := some true }
        ⟨[], 0, 0, []⟩).result = .ok () ∧
    (SetTimedShutters.perform
        { TS_Scrambler := some false, TS_SimulCal := some false, TS_FF_Fiber := some false,
          TS_CaHK := some false } ⟨[], 0, 0, []⟩).trace
      = [Ev.writeE "kpfexpose.TIMED_SHUTTERS" (joinComma (tsList false false false false))] :=
  ⟨((multiselect_roundtrip ⟨[], 0, 0, []⟩ (by decide) (by decide) (by decide)).1
      true false true).2.2,
   ((multiselect_roundtrip ⟨[], 0, 0, []⟩ (by decide) (by decide) (by decide)).2.1
      true true true true true).2.2,
   ((multiselect_roundtrip ⟨[], 0, 0, []⟩ (by decide) (by decide) (by decide)).2.2
      false false false false).1⟩

/-- C1 counterexample: with every key absent, `SetCalSource.execute`
*does* raise (its post-condition reads `kpfmot.OCTAGON` unconditionally
and a string readback never equals the absent target `None`), and
`SetTriggeredDetectors.perform` *does* issue a device write (the empty
comma-joined string).  Both refute the claim that every action with its
target key(s) absent performs no write and has a non-raising
post-condition. -/
theorem absent_key_noop_counterexample :
    (SetCalSource.execute {} ⟨[], 0, 0, []⟩).result =
      .error (.kpf "Final octagon position mismatch:  != None") ∧
    (SetTriggeredDetectors.perform {} ⟨[], 0, 0, []⟩).trace.countP Ev.isWriteB = 1 := by
  constructor
  · decide
  · decide

/-- C1 (amended): with the relevant keys absent, `SetExptime`, `SetND1`,
`SetND2`, `PowerOnCalSource` and `PowerOffCalSource` are complete
no-ops (no event, no device change, no error).  However `SetCalSource`
is an exception on the post-condition side: its `perform` issues no
write, but its post-condition reads `kpfmot.OCTAGON` unconditionally and
always raises when `OctagonSource` is absent (string readback `!=` the
absent target).  And the three multi-select actions are exceptions on
the write side: with all their flag keys absent they still write the
empty comma-joined string (their membership post-conditions then pass on
a faithful readback, which is covered by the round-trip theorem). -/
theorem absent_key_behavior (e : Entry) (d : Dev) :
    (e.Exptime = none → e.exptime = none → SetExptime.execute e d = ⟨[], d, .ok ()⟩) ∧
    (e.ND1 = none → SetND1.execute e d = ⟨[], d, .ok ()⟩) ∧
    (e.ND2 = none → SetND2.execute e d = ⟨[], d, .ok ()⟩) ∧
    (e.lamp = none →
      PowerOnCalSource.execute e d = ⟨[], d, .ok ()⟩ ∧
      PowerOffCalSource.execute e d = ⟨[], d, .ok ()⟩) ∧
    (e.OctagonSource = none →
      (SetCalSource.perform e d).trace = [] ∧
      (SetCalSource.execute e d).result =
        .error (.kpf ("Final octagon position mismatch: "
          ++ d.readS "kpfmot.OCTAGON" ++ " != None"))) ∧
    (e.TriggerRed = none → e.TriggerGreen = none → e.TriggerCaHK = none →
      (SetTriggeredDetectors.perform e d).trace = [Ev.writeE "kpfexpose.TRIG_TARG" ""]) ∧
    (e.SSS_Science = none → e.SSS_Sky = none → e.SSS_SoCalSci = none →
      e.SSS_SoCalCal = none → e.SSS_CalSciSky = none →
      (SetSourceSelectShutters.perform e d).trace = [Ev.writeE "kpfexpose.SRC_SHUTTERS" ""]) ∧
    (e.TS_Scrambler = none → e.TS_SimulCal = none → e.TS_FF_Fiber = none → e.TS_CaHK = none →
      (SetTimedShutters.perform e d).trace = [Ev.writeE "kpfexpose.TIMED_SHUTTERS" ""]) := by
  refine ⟨?_, ?_, ?_, ?_, ?_, ?_, ?_, ?_⟩
  · intro hE he
    unfold SetExptime.execute mkExecute seqR passPre SetExptime.perform SetExptime.post_condition
    simp [hE, he]
  · intro h
    unfold SetND1.execute mkExecute seqR passPre SetND1.perform SetND1.post_condition
    simp [h]
  · intro h
    unfold SetND2.execute mkExecute seqR passPre SetND2.perform SetND2.post_condition
    simp [h]
  · intro h
    have hport : portOf e = none := by simp [portOf, h]
    constructor
    · unfold PowerOnCalSource.execute mkExecute seqR passPre PowerOnCalSource.perform
        PowerOnCalSource.post_condition
      simp [hport]
    · unfold PowerOffCalSource.execute mkExecute seqR passPre PowerOffCalSource.perform
        PowerOffCalSource.post_condition
      simp [hport]
  · intro h
    constructor
    · unfold SetCalSource.perform
      simp [h]
    · unfold SetCalSource.execute mkExecute seqR passPre SetCalSource.perform
        SetCalSource.post_condition
      simp [h, optStr, String.append_assoc]
  · intro h1 h2 h3
    unfold SetTriggeredDetectors.perform SetTriggeredDetectors.detString
    simp [h1, h2, h3, joinComma]
  · intro h1 h2 h3 h4 h5
    unfold SetSourceSelectShutters.perform SetSourceSelectShutters.shutterString
    simp [h1, h2, h3, h4, h5, joinComma]
  · intro h1 h2 h3 h4
    unfold SetTimedShutters.perform SetTimedShutters.shutterString
    simp [h1, h2, h3, h4, joinComma]

/-- Witness for the amended absent-key claim at the empty entry on a
fresh device. -/
theorem absent_key_behavior_witness :
    SetExptime.execute {} ⟨[], 0, 0, []⟩ = ⟨[], ⟨[], 0, 0, []⟩, .ok ()⟩ ∧
    SetND1.execute {} ⟨[], 0, 0, []⟩ = ⟨[], ⟨[], 0, 0, []⟩, .ok ()⟩ ∧
    SetND2.execute {} ⟨[], 0, 0, []⟩ = ⟨[], ⟨[], 0, 0, []⟩, .ok ()⟩ ∧
    PowerOnCalSource.execute {} ⟨[], 0, 0, []⟩ = ⟨[], ⟨[], 0, 0, []⟩, .ok ()⟩ ∧
    PowerOffCalSource.execute {} ⟨[], 0, 0, []⟩ = ⟨[], ⟨[], 0, 0, []⟩, .ok ()⟩ ∧
    (SetCalSource.perform {} ⟨[], 0, 0, []⟩).trace = [] ∧
    (SetTriggeredDetectors.perform {} ⟨[], 0, 0, []⟩).trace
      = [Ev.writeE "kpfexpose.TRIG_TARG" ""] ∧
    (SetSourceSelectShutters.perform {} ⟨[], 0, 0, []⟩).trace
      = [Ev.writeE "kpfexpose.SRC_SHUTTERS" ""] ∧
    (SetTimedShutters.perform {} ⟨[], 0, 0, []⟩).trace
      = [Ev.writeE "kpfexpose.TIMED_SHUTTERS" ""] :=
  ⟨(absent_key_behavior {} ⟨[], 0, 0, []⟩).1 rfl rfl,
   (absent_key_behavior {} ⟨[], 0, 0, []⟩).2.1 rfl,
   (absent_key_behavior {} ⟨[], 0, 0, []⟩).2.2.1 rfl,
   ((absent_key_behavior {} ⟨[], 0, 0, []⟩).2.2.2.1 rfl).1,
   ((absent_key_behavior {} ⟨[], 0, 0, []⟩).2.2.2.1 rfl).2,
   ((absent_key_behavior {} ⟨[], 0, 0, []⟩).2.2.2.2.1 rfl).1,
   (absent_key_behavior {} ⟨[], 0, 0, []⟩).2.2.2.2.2.1 rfl rfl rfl,
   (absent_key_behavior {} ⟨[], 0, 0, []⟩).2.2.2.2.2.2.1 rfl rfl rfl rfl rfl,
   (absent_key_behavior {} ⟨[], 0, 0, []⟩).2.2.2.2.2.2.2 rfl rfl rfl rfl⟩

/-- C2: the `SetExptime` read-back verification is dead code.  With an
entry carrying key `Exptime` (5 s) and a device whose `EXPOSURE` keyword
is stuck at 100 s (the write is not honoured), `execute` performs the
write, then succeeds without any read-back or error — its
`post_condition` looks up the key `exptime` (lower case), which is a
different dict key and is absent — even though the device value differs
from the request by far more than the 0.1 s tolerance. -/
theorem setexptime_verification_dead :
    SetExptime.execute { Exptime := some 500 } ⟨[], 10000, 0, ["kpfexpose.EXPOSURE"]⟩ =
      ⟨[Ev.writeN "kpfexpose.EXPOSURE" 500], ⟨[], 10000, 0, ["kpfexpose.EXPOSURE"]⟩, .ok ()⟩ ∧
    10 < |(10000 : Int) - 500| := by
  constructor
  · decide
  · decide

/-- C3: `PowerOffCalSource` never reaches its `unlock / Off / lock`
writes for a mapped lamp: after reading the outlet's `_NAME` keyword its
`perform` evaluates `args.lamp` on the dict argument and raises
`AttributeError`, so the trace contains no write at all; for an unmapped
lamp the action is a no-op as specified. -/
theorem poweroff_attribute_error :
    PowerOffCalSource.execute { lamp := some "U_gold" } ⟨[], 0, 0, []⟩ =
      ⟨[Ev.readE "kpfpower.OUTLET_CAL2_7_NAME" ""], ⟨[], 0, 0, []⟩,
        .error (.attributeError "lamp")⟩ ∧
    PowerOffCalSource.execute { lamp := some "EtalonFiber" } ⟨[], 0, 0, []⟩ =
      ⟨[], ⟨[], 0, 0, []⟩, .ok ()⟩ := by
  constructor
  · decide
  · decide

/-- C4: with a missing input file the run does abort inside
`pre_condition`, before any device interaction or parsing (the returned
trace is empty and the device untouched for every loader and device) —
but the raised exception is an `AttributeError` from evaluating
`args.file` (the argparse namespace only defines `files`) while building
the message, not a `FileNotFoundError` naming the missing file. -/
theorem missing_file_attribute_error (load : String → Entry) (d : Dev) :
    RunCalSequence.execute ⟨["missing.yaml"], 1, false, false⟩ load [] d =
      ⟨[], d, .error (.attributeError "file")⟩ := rfl

/-- Witness for the power-once / single-max-sleep theorem at the spec's
end-to-end scenario: each lamp's power-on marker appears exactly once in
the whole run trace, and the only sleep is the 45 s maximum. -/
theorem runcal_powers_once_sleeps_max_witness :
    (RunCalSequence.perform c8args c8load ⟨[], 0, 0, []⟩).trace.countP
      (fun ev => ev == Ev.act "PowerOnCalSource" "U_gold") = 1 ∧
    (RunCalSequence.perform c8args c8load ⟨[], 0, 0, []⟩).trace.countP
      (fun ev => ev == Ev.act "PowerOnCalSource" "Th_daily") = 1 ∧
    (RunCalSequence.perform c8args c8load ⟨[], 0, 0, []⟩).trace.filter Ev.isSleepB
      = [Ev.sleepE 4500] := by
  obtain ⟨pre, rest, hsplit, hc, hs, hpre, hrest, hcountAll, hsleepAll⟩ :=
    runcal_powers_once_sleeps_max c8args c8load ⟨[], 0, 0, []⟩
      ["U_gold", "Th_daily"] [3000, 4500] 4500 (by decide) (by decide) (by decide) rfl
  refine ⟨?_, ?_, hsleepAll⟩
  · have h := hcountAll "U_gold"
    rw [if_pos (by decide)] at h
    exact h
  · have h := hcountAll "Th_daily"
    rw [if_pos (by decide)] at h
    exact h

example : splitComma "" = [""] := by decide

example : splitComma "Red,Green" = ["Red", "Green"] := by decide

example : joinComma ["Red", "Ca_HK"] = "Red,Ca_HK" := by decide

end KPFCal
